import Mathlib

/-!
DFRobot_MAX98357A: the audio pipeline and the SD playback task.

A shallow embedding of `src/src/Biquad.h` and `src/src/DFRobot_MAX98357A.cpp`.

Conventions of the embedding

* `float` values are exact rationals (`ℚ`): finite values, no rounding.  The
  two configuration calls that take a `float` from the caller, `setVolume` and
  `setFilter`, are given a second time on `CFloat`, which adds the two
  infinities and NaN to the finite values.
* bytes are natural numbers; a byte buffer is a `List Nat`; multi-byte values
  are little-endian, as on the ESP32.
* `int16_t` values are integers; the conversion `(int16_t)x` of a `float`
  truncates toward zero and keeps the low 16 bits (two's complement).  For `x`
  out of range the C++ standard leaves the result undefined; the wrap is the
  usual outcome of a 32-bit conversion followed by a 16-bit store.
* the global variables of the translation unit are the fields of `State`;
  the frames handed to `i2s_write` are appended to `State.i2sOut`.
* the playback task runs next to the caller of `SDPlayerControl`; the commands
  are fed to the task as the list of what each of its reads of
  `SDAmplifierMark` finds newly written (`readMark`).
-/

namespace DFRobot

/-! ## Constants (`DFRobot_MAX98357A.h`) -/

/-- Constant `#define NUMBER_OF_FILTER ((int)(3))`. -/
def NUMBER_OF_FILTER : Nat := 3

/-- Constant `#define SD_AMPLIFIER_PLAY ((uint8_t)1)`. -/
def SD_AMPLIFIER_PLAY : Nat := 1

/-- Constant `#define SD_AMPLIFIER_PAUSE ((uint8_t)2)`. -/
def SD_AMPLIFIER_PAUSE : Nat := 2

/-- Constant `#define SD_AMPLIFIER_STOP ((uint8_t)3)`. -/
def SD_AMPLIFIER_STOP : Nat := 3

/-- Constant `#define MAX98357A_VOICE_FROM_SD ((uint8_t)0)`. -/
def MAX98357A_VOICE_FROM_SD : Nat := 0

/-- Constant `#define MAX98357A_VOICE_FROM_BT ((uint8_t)1)`. -/
def MAX98357A_VOICE_FROM_BT : Nat := 1

/-! ## `Biquad.h` -/

/-- The data members of `class Biquad`. -/
structure Biquad where
  type : Int
  a0 : ℚ
  a1 : ℚ
  a2 : ℚ
  b1 : ℚ
  b2 : ℚ
  Fc : ℚ
  Q : ℚ
  peakGain : ℚ
  z1 : ℚ
  z2 : ℚ
deriving DecidableEq

/-- Method `Biquad::process`: returns `out` and the section with its updated delay
registers. -/
def Biquad.process (b : Biquad) (inp : ℚ) : ℚ × Biquad :=
  let out := inp * b.a0 + b.z1
  (out, { b with z1 := inp * b.a1 + b.z2 - b.b1 * out, z2 := inp * b.a2 - b.b2 * out })

/-- Feeding a sequence of samples through one section, one `process` call per
sample: the outputs in order and the section afterwards. -/
def Biquad.processAll (b : Biquad) : List ℚ → List ℚ × Biquad
  | [] => ([], b)
  | x :: xs =>
    let r := b.process x
    let rs := Biquad.processAll r.2 xs
    (r.1 :: rs.1, rs.2)

/-! ## Numeric conversions -/

/-- Modelled from the spec: the Arduino core macro `constrain(amt, low, high)`
is not part of the sources; the spec calls it a clamp to `[low, high]`.  The
definition is the macro's usual expansion
`(amt)<(low)?(low):((amt)>(high)?(high):(amt))`. -/
def constrain (amt low high : ℚ) : ℚ :=
  if amt < low then low else if amt > high then high else amt

/-- Truncation toward zero, the rounding of a float-to-integer conversion. -/
def truncate (x : ℚ) : Int := if 0 ≤ x then ⌊x⌋ else ⌈x⌉

/-- The low 16 bits of an integer read as a two's complement `int16_t`. -/
def wrap16 (z : Int) : Int := (z + 32768) % 65536 - 32768

/-- The conversion `(int16_t)x` of a `float`. -/
def castInt16 (x : ℚ) : Int := wrap16 (truncate x)

/-- The `int16_t` stored little-endian in the bytes `lo`, `hi`. -/
def int16OfBytes (lo hi : Nat) : Int := wrap16 ((lo % 256 + 256 * (hi % 256) : Nat) : Int)

/-- Sample `data16[k]` for `int16_t* data16 = (int16_t*)data`. -/
def readInt16 (data : List Nat) (k : Nat) : Int :=
  int16OfBytes (data.getD (2 * k) 0) (data.getD (2 * k + 1) 0)

/-! ## Filter cascade (`DFRobot_MAX98357A.cpp`, `filterToWork`) -/

/-- The loop `for(int i; i<NUMBER_OF_FILTER; i++){ rawData = bank[i].process(rawData); }`
entered with the counter at `i`; the first argument bounds the number of
iterations. -/
def cascadeLoop : Nat → Nat → List Biquad → ℚ → ℚ × List Biquad
  | 0, _, bank, rawData => (rawData, bank)
  | fuel + 1, i, bank, rawData =>
    if i < NUMBER_OF_FILTER then
      match bank.get? i with
      | some b =>
        let r := b.process rawData
        cascadeLoop fuel (i + 1) (bank.set i r.2) r.1
      | none => (rawData, bank)
    else (rawData, bank)

/-- Function `filterToWork(filterHP, filterLP, rawData)`.  The two loop counters are
declared without an initial value in the source; `i0` and `j0` are the values
they hold on entry.  Returns the `int16_t` result and the two banks after the
call. -/
def filterToWork (i0 j0 : Nat) (filterHP filterLP : List Biquad) (rawData : ℚ) :
    Int × List Biquad × List Biquad :=
  let r1 := cascadeLoop (NUMBER_OF_FILTER - i0) i0 filterLP rawData
  let r2 := cascadeLoop (NUMBER_OF_FILTER - j0) j0 filterHP r1.1
  (castInt16 (constrain r2.1 (-32767) 32767), r2.2, r1.2)

/-! ## Global state -/

/-- The global variables of `DFRobot_MAX98357A.cpp` that the audio path and
the playback task use, and the log of the frames handed to `i2s_write`. -/
structure State where
  _volume : ℚ
  _voiceSource : Nat
  _filterFlag : Bool
  _filterLLP : List Biquad
  _filterRLP : List Biquad
  _filterLHP : List Biquad
  _filterRHP : List Biquad
  SDAmplifierMark : Nat
  fileName : String
  i2sSampleRate : Nat
  i2sOut : List (Int × Int)
deriving DecidableEq

/-- Assignment `processedData[idx] = v` on the two-element local array. -/
def setProcessed (processedData : Int × Int) (idx : Nat) (v : Int) : Int × Int :=
  if idx = 0 then (v, processedData.2)
  else if idx = 1 then (processedData.1, v)
  else processedData

/-- Call `i2s_write(I2S_NUM_0, processedData, 4, ...)`: one frame goes to the sink. -/
def i2s_write (s : State) (processedData : Int × Int) : State :=
  { s with i2sOut := s.i2sOut ++ [processedData] }

/-- The loop of the branch `if(!_filterFlag)` of `audioDataProcessCallback`:
`n` iterations left, `k` the offset of `data16` in samples. -/
def volumeLoop (data : List Nat) : Nat → Nat → Int × Int → State → State
  | 0, _, _, s => s
  | n + 1, k, processedData, s =>
    let p1 := setProcessed processedData (0 + s._voiceSource)
      (castInt16 ((readInt16 data k : ℚ) * s._volume))
    let p2 := setProcessed p1 (1 - s._voiceSource)
      (castInt16 ((readInt16 data (k + 1) : ℚ) * s._volume))
    volumeLoop data n (k + 2) p2 (i2s_write s p2)

/-- The loop of the filtering branch of `audioDataProcessCallback`. -/
def filterLoop (i0 : Nat) (data : List Nat) : Nat → Nat → Int × Int → State → State
  | 0, _, _, s => s
  | n + 1, k, processedData, s =>
    let fl := filterToWork i0 i0 s._filterLHP s._filterLLP ((readInt16 data k : ℚ) * s._volume)
    let p1 := setProcessed processedData (0 + s._voiceSource) fl.1
    let s1 := { s with _filterLHP := fl.2.1, _filterLLP := fl.2.2 }
    let fr := filterToWork i0 i0 s1._filterRHP s1._filterRLP
      ((readInt16 data (k + 1) : ℚ) * s1._volume)
    let p2 := setProcessed p1 (1 - s1._voiceSource) fr.1
    let s2 := { s1 with _filterRHP := fr.2.1, _filterRLP := fr.2.2 }
    filterLoop i0 data n (k + 2) p2 (i2s_write s2 p2)

/-- Function `audioDataProcessCallback(data, len)`.  `i0` is the value the loop counters
of `filterToWork` hold on entry.  The local `processedData` starts as `(0, 0)`;
both of its slots are assigned before every write when `_voiceSource ≤ 1`. -/
def audioDataProcessCallback (i0 : Nat) (s : State) (data : List Nat) (len : Nat) : State :=
  let count := len / 4
  if !s._filterFlag then volumeLoop data count 0 (0, 0) s
  else filterLoop i0 data count 0 (0, 0) s

/-- Function `reverseLeftRightChannels()`:
`_voiceSource = (_voiceSource ? MAX98357A_VOICE_FROM_SD : MAX98357A_VOICE_FROM_BT)`. -/
def reverseLeftRightChannels (s : State) : State :=
  { s with _voiceSource :=
      if s._voiceSource ≠ 0 then MAX98357A_VOICE_FROM_SD else MAX98357A_VOICE_FROM_BT }

/-! ## Inputs and reference definitions used by the statements -/

/-- The two bytes, low byte first, that hold the `int16_t` value `v`. -/
def encodeInt16 (v : Int) : List Nat :=
  [(v % 65536).toNat % 256, (v % 65536).toNat / 256]

/-- The interleaved byte block of a sequence of stereo frames. -/
def encodeFrames : List (Int × Int) → List Nat
  | [] => []
  | f :: fs => encodeInt16 f.1 ++ encodeInt16 f.2 ++ encodeFrames fs

/-- The `n` stereo frames that start at sample offset `k` of a byte block. -/
def readFrames (data : List Nat) : Nat → Nat → List (Int × Int)
  | 0, _ => []
  | n + 1, k => (readInt16 data k, readInt16 data (k + 1)) :: readFrames data n (k + 2)

/-- The frame written for the input frame `(l, r)` by the volume-only branch
of `audioDataProcessCallback`. -/
def routeFrame (s : State) (f : Int × Int) : Int × Int :=
  setProcessed (setProcessed (0, 0) (0 + s._voiceSource) (castInt16 ((f.1 : ℚ) * s._volume)))
    (1 - s._voiceSource) (castInt16 ((f.2 : ℚ) * s._volume))

/-- The frames that `audioDataProcessCallback` appends to the sink for the
byte block `data` of length `len`. -/
def written (i0 : Nat) (s : State) (data : List Nat) (len : Nat) : List (Int × Int) :=
  (audioDataProcessCallback i0 s data len).i2sOut.drop s.i2sOut.length

/-- Reference cascade, one section as the recurrence
`out = in*a0 + z1`, `z1' = in*a1 + z2 - b1*out`, `z2' = in*a2 - b2*out`. -/
def sectionSpec (b : Biquad) (inp : ℚ) : ℚ × Biquad :=
  let out := inp * b.a0 + b.z1
  (out, { b with z1 := inp * b.a1 + b.z2 - b.b1 * out, z2 := inp * b.a2 - b.b2 * out })

/-- Reference cascade: the sample folded through every section of the bank in
index order, each output feeding the next section; returns the last output and
the sections after the pass. -/
def processCascade (bank : List Biquad) (sample : ℚ) : ℚ × List Biquad :=
  bank.foldl (fun acc b => ((sectionSpec b acc.1).1, acc.2 ++ [(sectionSpec b acc.1).2]))
    (sample, [])

/-- Reference clamp to `[-32767, 32767]` followed by truncation to an integer. -/
def clampTruncate (x : ℚ) : Int := truncate (max (-32767) (min x 32767))

/-- A state with the given gain, channel selector and filter flag, idle
banks and an empty sink. -/
def mkState (vol : ℚ) (voiceSource : Nat) (filterFlag : Bool) : State :=
  { _volume := vol, _voiceSource := voiceSource, _filterFlag := filterFlag,
    _filterLLP := [], _filterRLP := [], _filterLHP := [], _filterRHP := [],
    SDAmplifierMark := SD_AMPLIFIER_STOP, fileName := "", i2sSampleRate := 44100,
    i2sOut := [] }

/-- A section at rest with feed-forward gain `g` and feedback terms 1/2, 1/4. -/
def gainSection (g : ℚ) : Biquad :=
  { type := 0, a0 := g, a1 := 1, a2 := 1, b1 := 1 / 2, b2 := 1 / 4, Fc := 0, Q := 0,
    peakGain := 0, z1 := 0, z2 := 0 }

/-- A bank of three equal sections with feed-forward gain `g`. -/
def gainBank (g : ℚ) : List Biquad := List.replicate 3 (gainSection g)

/-! ## The WAV playback task (`DFRobot_MAX98357A.cpp`, `playWAV`) -/

/-- An open `FILE*`: the bytes from the read cursor to the end of the file,
and the offset of the cursor from the start of the file. -/
structure FILE where
  rest : List Nat
  pos : Nat
deriving DecidableEq

/-- Call `fopen(fileName, "rb")` on the bytes of a file: cursor at byte 0. -/
def fopen (content : List Nat) : FILE := { rest := content, pos := 0 }

/-- Call `fread(ptr, size, nmemb, fp)` asking for `n = size * nmemb` bytes: the
bytes obtained (fewer than `n` at end of file) and the file with its cursor
moved past them. -/
def fread (fp : FILE) (n : Nat) : List Nat × FILE :=
  (fp.rest.take n, { rest := fp.rest.drop n, pos := fp.pos + (fp.rest.take n).length })

/-- The buffer `buf` after `fread` has written the bytes `got` at its start;
the bytes beyond a short read keep their old content. -/
def store (buf got : List Nat) : List Nat := got ++ buf.drop got.length

/-- The unsigned value of a little-endian byte sequence. -/
def leValue : List Nat → Nat
  | [] => 0
  | b :: bs => b % 256 + 256 * leValue bs

/-- Function `strncmp(s1, s2, n)` on byte strings; a string that ends before `n`
bytes is followed by its terminating NUL. -/
def strncmp : List Nat → List Nat → Nat → Int
  | _, _, 0 => 0
  | s1, s2, n + 1 =>
    if s1.headD 0 ≠ s2.headD 0 then (s1.headD 0 : Int) - (s2.headD 0 : Int)
    else if s1.headD 0 = 0 then 0
    else strncmp s1.tail s2.tail n

/-- The struct `sWavParse_t`.  The character arrays are byte lists, the numeric
fields hold their values. -/
structure sWavParse_t where
  riffType : List Nat
  riffSize : Nat
  waveType : List Nat
  formatType : List Nat
  formatSize : Nat
  compressionCode : Nat
  numChannels : Nat
  sampleRate : Nat
  bytesPerSecond : Nat
  blockAlign : Nat
  bitsPerSample : Nat
  dataType1 : List Nat
  dataType2 : List Nat
  dataSize : Nat
  data : List Nat
deriving DecidableEq

/-- The header part of `calloc(1, sizeof(sWavInfo_t))`: every byte zero. -/
def callocWav : sWavParse_t :=
  { riffType := List.replicate 4 0, riffSize := 0, waveType := List.replicate 4 0,
    formatType := List.replicate 4 0, formatSize := 0, compressionCode := 0, numChannels := 0,
    sampleRate := 0, bytesPerSecond := 0, blockAlign := 0, bitsPerSample := 0,
    dataType1 := List.replicate 1 0, dataType2 := List.replicate 3 0, dataSize := 0,
    data := List.replicate 800 0 }

/-- The bytes of the C string literal "RIFF". -/
def strRIFF : List Nat := [82, 73, 70, 70]

/-- The bytes of the C string literal "WAVE". -/
def strWAVE : List Nat := [87, 65, 86, 69]

/-- The bytes of the C string literal "fmt". -/
def strFmt : List Nat := [102, 109, 116]

/-- The bytes of the C string literal "d". -/
def strD : List Nat := [100]

/-- The bytes of the C string literal "ata". -/
def strAta : List Nat := [97, 116, 97]

/-- Lines 535-572 of `playWAV`: the fixed part of the header, read into a
zero-initialised struct.  `none` stands for the four exits
`SDAmplifierMark = SD_AMPLIFIER_STOP; continue;`.  A numeric field read by a
short `fread` keeps zero in the bytes that were not read. -/
def playWAV_header (fp : FILE) (h : sWavParse_t) : Option (sWavParse_t × FILE) :=
  let r1 := fread fp 4
  let h1 := { h with riffType := store h.riffType r1.1 }
  if r1.1.length ≠ 4 then none
  else if strncmp strRIFF h1.riffType 4 ≠ 0 then none
  else
    let r2 := fread r1.2 4
    let h2 := { h1 with riffSize := leValue r2.1 }
    let r3 := fread r2.2 4
    let h3 := { h2 with waveType := store h2.waveType r3.1 }
    if r3.1.length ≠ 4 then none
    else if strncmp strWAVE h3.waveType 4 ≠ 0 then none
    else
      let r4 := fread r3.2 4
      let h4 := { h3 with formatType := store h3.formatType r4.1 }
      if r4.1.length ≠ 4 then none
      else if strncmp strFmt h4.formatType 3 ≠ 0 then none
      else
        let r5 := fread r4.2 4
        let r6 := fread r5.2 2
        let r7 := fread r6.2 2
        let r8 := fread r7.2 4
        let r9 := fread r8.2 4
        let r10 := fread r9.2 2
        let r11 := fread r10.2 2
        some ({ h4 with formatSize := leValue r5.1, compressionCode := leValue r6.1,
                        numChannels := leValue r7.1, sampleRate := leValue r8.1,
                        bytesPerSecond := leValue r9.1, blockAlign := leValue r10.1,
                        bitsPerSample := leValue r11.1 }, r11.2)

/-- Lines 573-586 of `playWAV`: the scan for the data chunk.  The first
argument bounds the number of iterations (`none` when it is used up).  The
result is the struct and the file when the loop is left, and a flag: `false`
for the exit after `dataSize` is read, `true` for the exit through
`free(wav); break;` at end of file, after which the struct is freed memory (its
content in the result is the content at the moment of the `free`). -/
def playWAV_scan : Nat → sWavParse_t → FILE → Option (sWavParse_t × FILE × Bool)
  | 0, _, _ => none
  | fuel + 1, h, fp =>
    let r1 := fread fp 1
    let h1 := { h with dataType1 := store h.dataType1 r1.1 }
    if r1.1.length ≠ 1 then some (h1, r1.2, true)
    else if strncmp strD h1.dataType1 1 = 0 then
      let r3 := fread r1.2 3
      let h2 := { h1 with dataType2 := store h1.dataType2 r3.1 }
      if strncmp strAta h2.dataType2 3 = 0 then
        let r4 := fread r3.2 4
        some ({ h2 with dataSize := leValue r4.1 }, r4.2, false)
      else playWAV_scan fuel h2 r3.2
    else playWAV_scan fuel h1 r1.2

/-- One read of the global `SDAmplifierMark` by the playback task.  The
controlling caller writes the variable from another task: the head of `env` is
`some CMD` when `SDPlayerControl(CMD)` ran since the previous read and `none`
when it did not; an empty `env` means no further command arrives. -/
def readMark (env : List (Option Nat)) (s : State) : State × List (Option Nat) :=
  match env with
  | [] => (s, [])
  | none :: rest => (s, rest)
  | some CMD :: rest => ({ s with SDAmplifierMark := CMD }, rest)

/-- The loop `while(SD_AMPLIFIER_PAUSE == SDAmplifierMark){ vTaskDelay(100); }`.
`none` when the loop never ends: no command is left and the mark is Pause. -/
def pauseWait : List (Option Nat) → State → Option (State × List (Option Nat))
  | [], s => if SD_AMPLIFIER_PAUSE = s.SDAmplifierMark then none else some (s, [])
  | e :: rest, s =>
    let r := readMark (e :: rest) s
    if SD_AMPLIFIER_PAUSE = r.1.SDAmplifierMark then pauseWait rest r.1 else some r

/-- The loop `while(SD_AMPLIFIER_STOP == SDAmplifierMark){ vTaskDelay(100); }`.
`none` when the loop never ends: no command is left and the mark is Stop. -/
def idleWait : List (Option Nat) → State → Option (State × List (Option Nat))
  | [], s => if SD_AMPLIFIER_STOP = s.SDAmplifierMark then none else some (s, [])
  | e :: rest, s =>
    let r := readMark (e :: rest) s
    if SD_AMPLIFIER_STOP = r.1.SDAmplifierMark then idleWait rest r.1 else some r

/-- Where the playback task stands when it can be observed. -/
inductive TaskResult where
  /-- The body of `while(1)` ran to its end (or left through `continue`). -/
  | finished (s : State) (env : List (Option Nat))
  /-- The task waits in the Stop loop and no command is left. -/
  | idle (s : State)
  /-- The task waits in the Pause loop, the file open at `fp`, and no command is left. -/
  | paused (s : State) (fp : FILE)
  /-- The scan for the data chunk left through `free(wav); break;`.  The code
  goes on to read the freed struct (`wav->header.sampleRate`, `wav->fp`) and to
  free it a second time: undefined behaviour, of which nothing is modelled.
  The state and the pending commands are those at the `free`. -/
  | useAfterFree (s : State) (env : List (Option Nat))
  /-- The iteration bound of the model was used up. -/
  | outOfFuel
deriving DecidableEq

/-- Lines 590-603 of `playWAV`: the chunk loop and the close.  The first
argument bounds the number of chunks. -/
def playWAV_stream (i0 : Nat) : Nat → List (Option Nat) → sWavParse_t → FILE → State → TaskResult
  | 0, _, _, _, _ => TaskResult.outOfFuel
  | fuel + 1, env, h, fp, s =>
    let r := fread fp 800
    if r.1.length = 0 then TaskResult.finished { s with SDAmplifierMark := SD_AMPLIFIER_STOP } env
    else
      let h1 := { h with data := store h.data r.1 }
      let s1 := audioDataProcessCallback i0 s h1.data 800
      let m := readMark env s1
      if SD_AMPLIFIER_STOP = m.1.SDAmplifierMark then
        TaskResult.finished { m.1 with SDAmplifierMark := SD_AMPLIFIER_STOP } m.2
      else
        match pauseWait m.2 m.1 with
        | none => TaskResult.paused { m.1 with SDAmplifierMark := SD_AMPLIFIER_PAUSE } r.2
        | some w => playWAV_stream i0 fuel w.2 h1 r.2 w.1

/-- Lines 521-603 of `playWAV`: one pass through the body of `while(1)` after
the Stop loop.  `fs` maps a path to the bytes of the file, `none` when
`fopen` fails; `calloc` is taken to succeed. -/
def playWAV_body (i0 : Nat) (fs : String → Option (List Nat)) (env : List (Option Nat))
    (s : State) : TaskResult :=
  match fs s.fileName with
  | none => TaskResult.finished { s with SDAmplifierMark := SD_AMPLIFIER_STOP } env
  | some content =>
    match playWAV_header (fopen content) callocWav with
    | none => TaskResult.finished { s with SDAmplifierMark := SD_AMPLIFIER_STOP } env
    | some hf =>
      match playWAV_scan (content.length + 1) hf.1 hf.2 with
      | none => TaskResult.outOfFuel
      | some hd =>
        if hd.2.2 then TaskResult.useAfterFree s env
        else
          playWAV_stream i0 (content.length + 1) env hd.1 hd.2.1
            { s with i2sSampleRate := hd.1.sampleRate }

/-- The task `playWAV`: the body of `while(1)` repeated, the first argument
bounding the number of passes. -/
def playWAV_loop (i0 : Nat) (fs : String → Option (List Nat)) :
    Nat → List (Option Nat) → State → TaskResult
  | 0, _, _ => TaskResult.outOfFuel
  | fuel + 1, env, s =>
    match idleWait env s with
    | none => TaskResult.idle { s with SDAmplifierMark := SD_AMPLIFIER_STOP }
    | some w =>
      match playWAV_body i0 fs w.2 w.1 with
      | TaskResult.finished s1 env1 => playWAV_loop i0 fs fuel env1 s1
      | r => r

/-- The task `playWAV` run until it waits with no command left.  Every pass
but the first needs a command to leave the Stop loop, so `env.length + 2`
passes are enough. -/
def playWAV (i0 : Nat) (fs : String → Option (List Nat)) (env : List (Option Nat))
    (s : State) : TaskResult :=
  playWAV_loop i0 fs (env.length + 2) env s

/-- Function `SDPlayerControl(CMD)`. -/
def SDPlayerControl (s : State) (CMD : Nat) : State :=
  { s with SDAmplifierMark := CMD }

/-- The state the task leaves behind, where the model has one. -/
def TaskResult.state? : TaskResult → Option State
  | TaskResult.finished s _ => some s
  | TaskResult.idle s => some s
  | TaskResult.paused s _ => some s
  | TaskResult.useAfterFree _ _ => none
  | TaskResult.outOfFuel => none

/-! ## WAV files used by the statements -/

/-- The `n` little-endian bytes of `v`. -/
def leBytes : Nat → Nat → List Nat
  | 0, _ => []
  | n + 1, v => v % 256 :: leBytes n (v / 256)

/-- A file of the canonical layout, every field given by its bytes. -/
def wavLayout (size fmtSize code channels rate byteRate align bits dataSize payload : List Nat) :
    List Nat :=
  strRIFF ++ size ++ strWAVE ++ [102, 109, 116, 32] ++ fmtSize ++ code ++ channels ++ rate ++
    byteRate ++ align ++ bits ++ [100, 97, 116, 97] ++ dataSize ++ payload

/-- A well-formed 16-bit stereo PCM file of the given sample rate and payload. -/
def wavFile (sampleRate : Nat) (payload : List Nat) : List Nat :=
  wavLayout (leBytes 4 (36 + payload.length)) (leBytes 4 16) (leBytes 2 1) (leBytes 2 2)
    (leBytes 4 sampleRate) (leBytes 4 (4 * sampleRate)) (leBytes 2 4) (leBytes 2 16)
    (leBytes 4 payload.length) payload

/-- One second of 16-bit stereo silence at the given sample rate. -/
def silentWav (sampleRate : Nat) : List Nat :=
  wavFile sampleRate (List.replicate (4 * sampleRate) 0)

/-- The header parse of `playWAV`: the fixed part, then the scan for the data
chunk, on a freshly opened file and a zero-initialised struct.  The flag of the
result is that of `playWAV_scan`: `false` when the data chunk was found. -/
def playWAV_parse (content : List Nat) : Option (sWavParse_t × FILE × Bool) :=
  (playWAV_header (fopen content) callocWav).bind
    fun hf => playWAV_scan (content.length + 1) hf.1 hf.2

/-- How the scan of the file selected by `name` ends: `some true` when it
leaves through `free(wav); break;`, `some false` when it finds the data chunk,
`none` when the file cannot be opened or the fixed part of the header is
refused. -/
def scanExit (fs : String → Option (List Nat)) (name : String) : Option Bool :=
  ((fs name).bind playWAV_parse).map fun r => r.2.2

/-- The struct after the fixed part of a canonical header has been read. -/
def headerOf (size fmtSize code channels rate byteRate align bits : List Nat) : sWavParse_t :=
  { callocWav with
    riffType := strRIFF, riffSize := leValue size, waveType := strWAVE,
    formatType := [102, 109, 116, 32], formatSize := leValue fmtSize,
    compressionCode := leValue code, numChannels := leValue channels,
    sampleRate := leValue rate, bytesPerSecond := leValue byteRate,
    blockAlign := leValue align, bitsPerSample := leValue bits }

/-! ## Auxiliary definitions for the playback statements -/

/-- The state with `SDAmplifierMark` replaced. -/
def setMark (s : State) (m : Nat) : State := { s with SDAmplifierMark := m }

/-- The bytes of the chunk tag "data". -/
def strData : List Nat := [100, 97, 116, 97]

/-- A file system that holds the single file `content` under the path `name`. -/
def singleFile (name : String) (content : List Nat) : String → Option (List Nat) :=
  fun p => if p = name then some content else none

/-- A state with unit gain, no swap, filtering disabled, an empty sink, the
given transport mark and the file "/sd/a.wav" selected. -/
def sdState (mark : Nat) : State :=
  { mkState 1 0 false with SDAmplifierMark := mark, fileName := "/sd/a.wav" }

/-- The struct after the header of `silentWav sampleRate` has been parsed. -/
def silentHeader (sampleRate : Nat) : sWavParse_t :=
  { headerOf (leBytes 4 (36 + (List.replicate (4 * sampleRate) 0).length)) (leBytes 4 16)
      (leBytes 2 1) (leBytes 2 2) (leBytes 4 sampleRate) (leBytes 4 (4 * sampleRate))
      (leBytes 2 4) (leBytes 2 16) with
    dataType1 := [100], dataType2 := [97, 116, 97],
    dataSize := leValue (leBytes 4 (List.replicate (4 * sampleRate) 0).length) }

/-- A well-formed file whose container tag has been corrupted to "RIGF". -/
def corruptWav : List Nat := [82, 73, 71, 70] ++ (wavFile 8000 [1, 0, 2, 0]).drop 4

/-! ## Configuration calls (`setVolume`, `setFilter`, `openFilter`, `closeFilter`, `begin`) -/

/-- Enumerator `bq_type_lowpass = 0` of `Biquad.h`. -/
def bq_type_lowpass : Int := 0

/-- Enumerator `bq_type_highpass` of `Biquad.h`. -/
def bq_type_highpass : Int := 1

/-- Enumerator `bq_type_bandpass` of `Biquad.h`. -/
def bq_type_bandpass : Int := 2

/-- Enumerator `bq_type_notch` of `Biquad.h`. -/
def bq_type_notch : Int := 3

/-- Enumerator `bq_type_peak` of `Biquad.h`. -/
def bq_type_peak : Int := 4

/-- Enumerator `bq_type_lowshelf` of `Biquad.h`. -/
def bq_type_lowshelf : Int := 5

/-- Enumerator `bq_type_highshelf` of `Biquad.h`. -/
def bq_type_highshelf : Int := 6

/-- Global `int32_t _sampleRate = 44100`; no function assigns it. -/
def _sampleRate : Int := 44100

/-- What the sources use and do not define: the method `Biquad::setBiquad`
(declared in `Biquad.h`, its body is in no source file), called as
`b.setBiquad(type, Fc, Q, peakGainDB)` and returning the section afterwards;
the library function `cos`; the Arduino constant `PI`. -/
structure Externals where
  setBiquad : Biquad → Int → ℚ → ℚ → ℚ → Biquad
  cos : ℚ → ℚ
  PI : ℚ

/-- Function `setVolume(vol)`. -/
def setVolume (s : State) (vol : ℚ) : State :=
  let vol1 := vol / 5
  { s with _volume := constrain vol1 0 2 }

/-- The loop of `setFilter`, entered with the counter at `i` (the source
declares `int i;` without an initial value); the first argument bounds the
number of iterations. -/
def setFilterLoop (L : Externals) (_type : Int) (_fc : ℚ) : Nat → Nat → List Biquad → List Biquad
  | 0, _, _filter => _filter
  | fuel + 1, i, _filter =>
    if i < NUMBER_OF_FILTER then
      let Q := 1 / (2 * L.cos (L.PI / ((NUMBER_OF_FILTER : ℚ) * 4)
        + (i : ℚ) * L.PI / ((NUMBER_OF_FILTER : ℚ) * 2)))
      match _filter.get? i with
      | some b => setFilterLoop L _type _fc fuel (i + 1) (_filter.set i (L.setBiquad b _type _fc Q 0))
      | none => _filter
    else _filter

/-- Function `setFilter(_filter, _type, _fc)`; `i0` is the value the loop counter
holds on entry.  Returns the bank afterwards. -/
def setFilter (L : Externals) (i0 : Nat) (_filter : List Biquad) (_type : Int) (_fc : ℚ) :
    List Biquad :=
  let _fc1 := constrain _fc 2 20000 / (_sampleRate : ℚ)
  setFilterLoop L _type _fc1 (NUMBER_OF_FILTER - i0) i0 _filter

/-- Function `openFilter(type, fc)`. -/
def openFilter (L : Externals) (i0 : Nat) (s : State) (type : Int) (fc : ℚ) : State :=
  let s1 :=
    if bq_type_lowpass = type then
      { s with _filterLLP := setFilter L i0 s._filterLLP type fc,
               _filterRLP := setFilter L i0 s._filterRLP type fc }
    else
      { s with _filterLHP := setFilter L i0 s._filterLHP type fc,
               _filterRHP := setFilter L i0 s._filterRHP type fc }
  { s1 with _filterFlag := true }

/-- Function `closeFilter()`. -/
def closeFilter (s : State) : State := { s with _filterFlag := false }

/-- Function `begin(btName, bclk, lrclk, din)`.  The two flags are the results of
`initI2S` and `initBluetooth`, which talk to the hardware; a successful
`initBluetooth` ends with `_voiceSource = MAX98357A_VOICE_FROM_BT`. -/
def begin (L : Externals) (i0 : Nat) (initI2S initBluetooth : Bool) (s : State) : Bool × State :=
  if !initI2S then (false, s)
  else if !initBluetooth then (false, s)
  else
    let s1 := { s with _voiceSource := MAX98357A_VOICE_FROM_BT }
    let s2 := { s1 with _filterLLP := setFilter L i0 s1._filterLLP bq_type_lowpass 20000 }
    let s3 := { s2 with _filterRLP := setFilter L i0 s2._filterRLP bq_type_lowpass 20000 }
    let s4 := { s3 with _filterLHP := setFilter L i0 s3._filterLHP bq_type_highpass 2 }
    let s5 := { s4 with _filterRHP := setFilter L i0 s4._filterRHP bq_type_highpass 2 }
    (true, s5)

/-- A call of the filter interface. -/
inductive FilterCall where
  | openFilter (type : Int) (fc : ℚ)
  | closeFilter

/-- The state after a sequence of `openFilter` and `closeFilter` calls. -/
def runFilterCalls (L : Externals) (i0 : Nat) : List FilterCall → State → State
  | [], s => s
  | FilterCall.openFilter type fc :: rest, s => runFilterCalls L i0 rest (openFilter L i0 s type fc)
  | FilterCall.closeFilter :: rest, s => runFilterCalls L i0 rest (closeFilter s)

/-- Modelled from the spec: the bodies of `Biquad::setBiquad` and
`Biquad::calcBiquad` are in no source file (`Biquad.h` only declares them).
Spec 4.1: configure stores the design (kind, normalized cutoff, quality factor,
peak gain) and recomputes the five coefficients from it; the cookbook formulas
are the parameter `coeffs`.  The delay registers are kept. -/
def Biquad.setBiquad (coeffs : Int → ℚ → ℚ → ℚ → ℚ × ℚ × ℚ × ℚ × ℚ) (b : Biquad) (type : Int)
    (Fc Q peakGainDB : ℚ) : Biquad :=
  { b with type := type, Fc := Fc, Q := Q, peakGain := peakGainDB,
           a0 := (coeffs type Fc Q peakGainDB).1,
           a1 := (coeffs type Fc Q peakGainDB).2.1,
           a2 := (coeffs type Fc Q peakGainDB).2.2.1,
           b1 := (coeffs type Fc Q peakGainDB).2.2.2.1,
           b2 := (coeffs type Fc Q peakGainDB).2.2.2.2 }

/-- Reference quality factor of section `i` of a bank of `N = NUMBER_OF_FILTER`
sections: `1 / (2 * cos(pi/(4N) + i*pi/(2N)))`. -/
def qualityFactor (L : Externals) (i : Nat) : ℚ :=
  1 / (2 * L.cos (L.PI / (4 * (NUMBER_OF_FILTER : ℚ)) + (i : ℚ) * L.PI / (2 * (NUMBER_OF_FILTER : ℚ))))

/-- Reference normalized cutoff: the raw cutoff clamped to `[2, 20000]` and
divided by the sample rate. -/
def normalizedCutoff (fc : ℚ) : ℚ := max 2 (min fc 20000) / 44100

/-- Stand-ins for the externals: `setBiquad` as modelled, with constant
coefficients, a constant for `cos` and 355/113 for `PI`. -/
def sampleExternals : Externals :=
  { setBiquad := Biquad.setBiquad (fun _ _ _ _ => (1, 0, 0, 0, 0)),
    cos := fun _ => 1,
    PI := 355 / 113 }

/-- A state whose four banks hold three sections each. -/
def bankState : State :=
  { mkState 1 0 false with
    _filterLLP := gainBank 1, _filterRLP := gainBank 1,
    _filterLHP := gainBank 1, _filterRHP := gainBank 1 }

/-- The four banks hold three sections each. -/
def BanksSized (s : State) : Prop :=
  s._filterLLP.length = 3 ∧ s._filterRLP.length = 3 ∧
    s._filterLHP.length = 3 ∧ s._filterRHP.length = 3

/-- Every section of the two low-pass banks is of kind lowpass. -/
def LowBanksLowpass (s : State) : Prop :=
  (∀ b ∈ s._filterLLP, b.type = bq_type_lowpass) ∧ (∀ b ∈ s._filterRLP, b.type = bq_type_lowpass)

/-- Every section of the two high-pass banks is of kind highpass. -/
def HighBanksHighpass (s : State) : Prop :=
  (∀ b ∈ s._filterLHP, b.type = bq_type_highpass) ∧ (∀ b ∈ s._filterRHP, b.type = bq_type_highpass)

/-- Every `openFilter` call of the sequence has one of the two kinds that the
header documents for its parameter `type`. -/
def DocumentedKinds (calls : List FilterCall) : Prop :=
  ∀ c ∈ calls, ∀ type fc, c = FilterCall.openFilter type fc →
    type = bq_type_lowpass ∨ type = bq_type_highpass

/-! ## The music catalog (`listDir`, `scanSDMusic`) -/

/-- A node of the directory tree of the SD card, as `openNextFile` hands it
out: a file with its `name()` and `path()`, or a directory with its name, path
and children in enumeration order. -/
inductive Node where
  | file (name path : String)
  | dir (name path : String) (children : List Node)

/-- The globals `String _musicList[100]` and `uint8_t musicCount`.  The list
holds the 100 slots of the array and, behind them, whatever a store past the
end of the array has written there. -/
structure Catalog where
  _musicList : List String
  musicCount : Nat
deriving DecidableEq

/-- The catalog at program start: 100 empty strings, count 0. -/
def bootCatalog : Catalog := { _musicList := List.replicate 100 "", musicCount := 0 }

/-- The assignment `a[i] = v` on an array of strings; an index past the end
writes behind the array. -/
def storeAt (a : List String) (i : Nat) (v : String) : List String :=
  if i < a.length then a.set i v else a ++ List.replicate (i - a.length) "" ++ [v]

/-- Function `strstr(haystack, needle)` as a test: whether the needle occurs. -/
def strstr : List Char → List Char → Bool
  | [], needle => needle.isEmpty
  | c :: haystack, needle => needle.isPrefixOf (c :: haystack) || strstr haystack needle

mutual
/-- Function `listDir(fs, dirName)` on the node that `fs.open(dirName)` yields. -/
def listDir : Node → Catalog → Catalog
  | Node.file _ _, c => c
  | Node.dir _ _ children, c => listDirLoop children c
/-- The loop `while(file){ ... file = root.openNextFile(); }` of `listDir` over
the entries still to come. -/
def listDirLoop : List Node → Catalog → Catalog
  | [], c => c
  | Node.dir name path children :: rest, c =>
    listDirLoop rest (listDir (Node.dir name path children) c)
  | Node.file name path :: rest, c =>
    if strstr name.data ".wav".data then
      listDirLoop rest
        { _musicList := storeAt c._musicList c.musicCount path,
          musicCount := (c.musicCount + 1) % 256 }
    else listDirLoop rest c
end

/-- The loop `while(i < musicCount){ musicList[i] = _musicList[i]; i++; }` of
`scanSDMusic`; the first argument bounds the number of iterations. -/
def copyMusicList (c : Catalog) : Nat → Nat → List String → List String
  | 0, _, musicList => musicList
  | fuel + 1, i, musicList =>
    if i < c.musicCount then
      copyMusicList c fuel (i + 1) (storeAt musicList i (c._musicList.getD i ""))
    else musicList

/-- Function `scanSDMusic(musicList)` on the card whose root directory is `root`:
the state, the catalog globals and the array of the caller afterwards. -/
def scanSDMusic (s : State) (c : Catalog) (root : Node) (musicList : List String) :
    State × Catalog × List String :=
  let c0 := { c with musicCount := 0 }
  let c1 := listDir root c0
  let musicList1 := copyMusicList c1 c1.musicCount 0 musicList
  ({ s with fileName := "/sd" ++ musicList1.getD 0 "" }, c1, musicList1)

/-- The catalog that `scanSDMusic` hands to its caller: the first
`musicCount` entries of the array. -/
def scannedCatalog (s : State) (c : Catalog) (root : Node) (musicList : List String) :
    List String :=
  (scanSDMusic s c root musicList).2.2.take (scanSDMusic s c root musicList).2.1.musicCount

mutual
/-- Reference catalog: the paths, in enumeration order, of the files that are
not directories and whose name ends in ".wav". -/
def wavPaths : Node → List String
  | Node.file name path => if ".wav".data.isSuffixOf name.data then [path] else []
  | Node.dir _ _ children => wavPathsList children
/-- Reference catalog of a sequence of nodes. -/
def wavPathsList : List Node → List String
  | [] => []
  | n :: rest => wavPaths n ++ wavPathsList rest
end

/-- A card with two files in its root: "notes.wav.txt" and "a.wav". -/
def cardWithBackup : Node :=
  Node.dir "/" "/" [Node.file "notes.wav.txt" "/notes.wav.txt", Node.file "a.wav" "/a.wav"]

/-- The file number `i` of a flat card: name "i.wav", path "/i.wav". -/
def numberedWav (i : Nat) : Node :=
  Node.file (toString i ++ ".wav") ("/" ++ toString i ++ ".wav")

/-- A card with the `n` files "0.wav", "1.wav", ... in its root. -/
def flatCard (n : Nat) : Node := Node.dir "/" "/" ((List.range n).map numberedWav)

/-! ## Further inputs for the playback statements -/

/-- The commands seen by the task when Pause arrives during the first chunk,
`polls` reads of the Pause loop find nothing new, and then Stop arrives. -/
def pauseThenStop (polls : Nat) : List (Option Nat) :=
  some SD_AMPLIFIER_PAUSE :: (List.replicate polls none ++ [some SD_AMPLIFIER_STOP])

/-- A 16-bit stereo 44100 Hz file in which one byte 'd' (the last byte of a
chunk placed before the data chunk) stands right before the tag "data"; the
data chunk declares 4 bytes and holds the frame (1, 2). -/
def wavWithStrayD : List Nat :=
  strRIFF ++ leBytes 4 45 ++ strWAVE ++ [102, 109, 116, 32] ++ leBytes 4 16 ++ leBytes 2 1 ++
    leBytes 2 2 ++ leBytes 4 44100 ++ leBytes 4 176400 ++ leBytes 2 4 ++ leBytes 2 16 ++
    [100] ++ strData ++ leBytes 4 4 ++ [1, 0, 2, 0]

/-- The two statements `_musicList[musicCount] = path; musicCount++;`. -/
def pushPath (c : Catalog) (path : String) : Catalog :=
  { _musicList := storeAt c._musicList c.musicCount path,
    musicCount := (c.musicCount + 1) % 256 }

mutual
/-- The paths, in enumeration order, of the files that are not directories
and whose name contains ".wav" somewhere. -/
def containsWavPaths : Node → List String
  | Node.file name path => if strstr name.data ".wav".data then [path] else []
  | Node.dir _ _ children => containsWavPathsList children
/-- The same for a sequence of nodes. -/
def containsWavPathsList : List Node → List String
  | [] => []
  | n :: rest => containsWavPaths n ++ containsWavPathsList rest
end

/-- A 16-bit stereo 44100 Hz file that holds the format chunk and an empty
"LIST" chunk, and no data chunk. -/
def wavWithoutData : List Nat :=
  strRIFF ++ leBytes 4 36 ++ strWAVE ++ [102, 109, 116, 32] ++ leBytes 4 16 ++ leBytes 2 1 ++
    leBytes 2 2 ++ leBytes 4 44100 ++ leBytes 4 176400 ++ leBytes 2 4 ++ leBytes 2 16 ++
    [76, 73, 83, 84] ++ leBytes 4 0

/-! ## Configuration arguments that are not finite -/

/-- A C `float` by class: a finite value (held exactly), one of the two
infinities, or NaN. -/
inductive CFloat where
  | negInf
  | fin (q : ℚ)
  | posInf
  | nan
deriving DecidableEq

/-- The C comparison `a < b`; it is false as soon as an operand is NaN. -/
def CFloat.lt : CFloat → CFloat → Bool
  | CFloat.nan, _ => false
  | _, CFloat.nan => false
  | CFloat.fin a, CFloat.fin b => decide (a < b)
  | CFloat.negInf, CFloat.negInf => false
  | CFloat.negInf, _ => true
  | CFloat.posInf, _ => false
  | CFloat.fin _, CFloat.posInf => true
  | CFloat.fin _, CFloat.negInf => false

/-- The C division `a / d` by a finite constant `d > 0`, the only divisions of
`setVolume` (by 5.0) and `setFilter` (by the sample rate): a finite value is
divided, an infinity and NaN stay what they are. -/
def CFloat.divPos (a : CFloat) (d : ℚ) : CFloat :=
  match a with
  | CFloat.fin q => CFloat.fin (q / d)
  | x => x

/-- Modelled from the spec: the Arduino core macro `constrain(amt, low, high)`
is not part of the sources; the spec calls it a clamp to `[low, high]`.  The
definition is the macro's usual expansion
`(amt)<(low)?(low):((amt)>(high)?(high):(amt))`, with the comparisons of C. -/
def constrainF (amt low high : CFloat) : CFloat :=
  if amt.lt low then low else if high.lt amt then high else amt

/-- Function `setVolume(vol)` on an argument of any class: the value assigned
to `_volume`. -/
def setVolumeF (vol : CFloat) : CFloat :=
  let vol1 := vol.divPos 5
  constrainF vol1 (CFloat.fin 0) (CFloat.fin 2)

/-- The loop of `setFilter` as the sequence of its calls
`_filter[i].setBiquad(_type, _fc, Q, 0)`: for each call the index `i` and the
four arguments.  The loop is entered with the counter at `i`; the first
argument bounds the number of iterations. -/
def setFilterLoopF (L : Externals) (_type : Int) (_fc : CFloat) :
    Nat → Nat → List (Nat × Int × CFloat × ℚ × ℚ)
  | 0, _ => []
  | fuel + 1, i =>
    if i < NUMBER_OF_FILTER then
      let Q := 1 / (2 * L.cos (L.PI / ((NUMBER_OF_FILTER : ℚ) * 4)
        + (i : ℚ) * L.PI / ((NUMBER_OF_FILTER : ℚ) * 2)))
      (i, _type, _fc, Q, 0) :: setFilterLoopF L _type _fc fuel (i + 1)
    else []

/-- Function `setFilter(_filter, _type, _fc)` on a cutoff of any class, as the
sequence of its `setBiquad` calls; `i0` is the value the loop counter holds on
entry. -/
def setFilterF (L : Externals) (i0 : Nat) (_type : Int) (_fc : CFloat) :
    List (Nat × Int × CFloat × ℚ × ℚ) :=
  let _fc1 := (constrainF _fc (CFloat.fin 2) (CFloat.fin 20000)).divPos (_sampleRate : ℚ)
  setFilterLoopF L _type _fc1 (NUMBER_OF_FILTER - i0) i0

/-! # Theorems -/

/-! ## Numeric conversions -/

theorem truncate_intCast (z : Int) : truncate (z : ℚ) = z := by
  unfold truncate
  split <;> simp

theorem wrap16_of_range (z : Int) (h1 : -32768 ≤ z) (h2 : z ≤ 32767) : wrap16 z = z := by
  unfold wrap16
  omega

theorem castInt16_intCast (z : Int) (h1 : -32768 ≤ z) (h2 : z ≤ 32767) :
    castInt16 (z : ℚ) = z := by
  unfold castInt16
  rw [truncate_intCast, wrap16_of_range z h1 h2]

theorem wrap16_range (z : Int) : -32768 ≤ wrap16 z ∧ wrap16 z ≤ 32767 := by
  unfold wrap16
  omega

theorem int16OfBytes_encode (v : Int) (h1 : -32768 ≤ v) (h2 : v ≤ 32767) :
    int16OfBytes ((v % 65536).toNat % 256) ((v % 65536).toNat / 256) = v := by
  unfold int16OfBytes wrap16
  omega

theorem readInt16_drop (data : List Nat) (k : Nat) :
    readInt16 data (k + 2) = readInt16 (data.drop 4) k := by
  unfold readInt16
  simp only [List.getD_eq_getElem?_getD, List.getElem?_drop]
  have e1 : 2 * (k + 2) = 4 + 2 * k := by ring
  rw [e1, Nat.add_assoc]

theorem readFrames_drop (data : List Nat) (n k : Nat) :
    readFrames data n (k + 2) = readFrames (data.drop 4) n k := by
  induction n generalizing k with
  | zero => rfl
  | succ n ih =>
    simp only [readFrames]
    rw [ih (k + 2), readInt16_drop, show k + 2 + 1 = (k + 1) + 2 by ring, readInt16_drop]

theorem readFrames_encodeFrames (fs : List (Int × Int)) (tl : List Nat)
    (h : ∀ f ∈ fs, (-32768 ≤ f.1 ∧ f.1 ≤ 32767) ∧ (-32768 ≤ f.2 ∧ f.2 ≤ 32767)) :
    readFrames (encodeFrames fs ++ tl) fs.length 0 = fs := by
  induction fs with
  | nil => rfl
  | cons f fs ih =>
    have hf := h f (List.mem_cons_self _ _)
    have ih1 := ih (fun g hg => h g (List.mem_cons_of_mem _ hg))
    simp only [List.length_cons, readFrames, encodeFrames, encodeInt16]
    rw [readFrames_drop]
    simp only [List.cons_append, List.nil_append, List.drop_succ_cons, List.drop_zero]
    rw [ih1]
    simp only [readInt16, List.getD_cons_zero, List.getD_cons_succ, Nat.mul_zero, Nat.zero_add,
      Nat.mul_one]
    rw [int16OfBytes_encode _ hf.1.1 hf.1.2, int16OfBytes_encode _ hf.2.1 hf.2.2]

/-! ## The volume-only branch of `audioDataProcessCallback` -/

theorem setProcessed_both (p : Int × Int) (vs : Nat) (hv : vs ≤ 1) (a b : Int) :
    setProcessed (setProcessed p (0 + vs) a) (1 - vs) b =
      setProcessed (setProcessed (0, 0) (0 + vs) a) (1 - vs) b := by
  interval_cases vs <;> simp [setProcessed]

theorem volumeLoop_eq (data : List Nat) (n k : Nat) (p : Int × Int) (s : State)
    (hv : s._voiceSource ≤ 1) :
    volumeLoop data n k p s =
      { s with i2sOut := s.i2sOut ++ (readFrames data n k).map (routeFrame s) } := by
  induction n generalizing k p s with
  | zero => simp [volumeLoop, readFrames]
  | succ n ih =>
    simp only [volumeLoop, readFrames, List.map_cons]
    rw [ih _ _ _ (by simpa [i2s_write] using hv), setProcessed_both p _ hv]
    simp [i2s_write, routeFrame]

theorem audioDataProcessCallback_volume (i0 : Nat) (s : State) (data : List Nat) (len : Nat)
    (hf : s._filterFlag = false) (hv : s._voiceSource ≤ 1) :
    audioDataProcessCallback i0 s data len =
      { s with i2sOut := s.i2sOut ++ (readFrames data (len / 4) 0).map (routeFrame s) } := by
  unfold audioDataProcessCallback
  rw [if_pos (by simp [hf])]
  exact volumeLoop_eq data _ 0 _ s hv

theorem written_volume (i0 : Nat) (s : State) (data : List Nat) (len : Nat)
    (hf : s._filterFlag = false) (hv : s._voiceSource ≤ 1) :
    written i0 s data len = (readFrames data (len / 4) 0).map (routeFrame s) := by
  simp [written, audioDataProcessCallback_volume i0 s data len hf hv]

theorem written_encodeFrames (i0 : Nat) (s : State) (fs : List (Int × Int))
    (hf : s._filterFlag = false) (hv : s._voiceSource ≤ 1)
    (h : ∀ f ∈ fs, (-32768 ≤ f.1 ∧ f.1 ≤ 32767) ∧ (-32768 ≤ f.2 ∧ f.2 ≤ 32767)) :
    written i0 s (encodeFrames fs) (4 * fs.length) = fs.map (routeFrame s) := by
  rw [written_volume i0 s _ _ hf hv]
  have e : 4 * fs.length / 4 = fs.length := by omega
  have r := readFrames_encodeFrames fs [] h
  rw [List.append_nil] at r
  rw [e, r]

/-- C1 (the code at the failing input).  With gain 2 (the value `setVolume`
stores for any argument of 10 or more), filtering disabled and the channel
selector at 0, the frame (20000, -20000) has the scaled values 40000 and
-40000; the volume-only branch of `audioDataProcessCallback` converts them
without a clamp and writes (-25536, 25536), not (32767, -32767); and at unit
gain the input -32768 is written as -32768. -/
theorem C1_volume_branch_has_no_clamp :
    written 0 (mkState 2 0 false) (encodeFrames [(20000, -20000)]) 4 = [(-25536, 25536)] ∧
    written 0 (mkState 1 0 false) (encodeFrames [(-32768, 0)]) 4 = [(-32768, 0)] := by
  constructor
  · have h := written_encodeFrames 0 (mkState 2 0 false) [(20000, -20000)] rfl (by decide)
      (by decide)
    rw [show 4 * [((20000 : Int), (-20000 : Int))].length = 4 from rfl] at h
    rw [h]
    norm_num [routeFrame, mkState, setProcessed, castInt16, truncate, wrap16, Int.ceil_neg]
  · have h := written_encodeFrames 0 (mkState 1 0 false) [(-32768, 0)] rfl (by decide)
      (by decide)
    rw [show 4 * [((-32768 : Int), (0 : Int))].length = 4 from rfl] at h
    rw [h]
    norm_num [routeFrame, mkState, setProcessed, castInt16, truncate, wrap16, Int.ceil_neg]

theorem routeFrame_unit_straight (s : State) (f : Int × Int) (hvol : s._volume = 1)
    (hvs : s._voiceSource = 0)
    (h : (-32768 ≤ f.1 ∧ f.1 ≤ 32767) ∧ (-32768 ≤ f.2 ∧ f.2 ≤ 32767)) :
    routeFrame s f = f := by
  unfold routeFrame
  rw [hvol, hvs, mul_one, mul_one, castInt16_intCast _ h.1.1 h.1.2,
    castInt16_intCast _ h.2.1 h.2.2]
  simp [setProcessed]

theorem routeFrame_unit_swapped (s : State) (f : Int × Int) (hvol : s._volume = 1)
    (hvs : s._voiceSource = 1)
    (h : (-32768 ≤ f.1 ∧ f.1 ≤ 32767) ∧ (-32768 ≤ f.2 ∧ f.2 ≤ 32767)) :
    routeFrame s f = (f.2, f.1) := by
  unfold routeFrame
  rw [hvol, hvs, mul_one, mul_one, castInt16_intCast _ h.1.1 h.1.2,
    castInt16_intCast _ h.2.1 h.2.2]
  simp [setProcessed]

theorem map_routeFrame_straight (s : State) (fs : List (Int × Int)) (hvol : s._volume = 1)
    (hvs : s._voiceSource = 0)
    (h : ∀ f ∈ fs, (-32768 ≤ f.1 ∧ f.1 ≤ 32767) ∧ (-32768 ≤ f.2 ∧ f.2 ≤ 32767)) :
    fs.map (routeFrame s) = fs := by
  induction fs with
  | nil => rfl
  | cons f fs ih =>
    rw [List.map_cons, routeFrame_unit_straight s f hvol hvs (h f (List.mem_cons_self _ _)),
      ih (fun g hg => h g (List.mem_cons_of_mem _ hg))]

theorem map_routeFrame_swapped (s : State) (fs : List (Int × Int)) (hvol : s._volume = 1)
    (hvs : s._voiceSource = 1)
    (h : ∀ f ∈ fs, (-32768 ≤ f.1 ∧ f.1 ≤ 32767) ∧ (-32768 ≤ f.2 ∧ f.2 ≤ 32767)) :
    fs.map (routeFrame s) = fs.map Prod.swap := by
  induction fs with
  | nil => rfl
  | cons f fs ih =>
    rw [List.map_cons, routeFrame_unit_swapped s f hvol hvs (h f (List.mem_cons_self _ _)),
      ih (fun g hg => h g (List.mem_cons_of_mem _ hg))]
    rfl

/-- C2.  With volume gain 1, filtering disabled and the channel selector at 0
(first sample of a pair to slot 0, second to slot 1), `audioDataProcessCallback`
appends to the sink exactly the input frames, for every block of frames whose
samples lie in [-32767, 32767]. -/
theorem C2_unit_gain_is_identity (i0 : Nat) (s : State) (fs : List (Int × Int))
    (hvol : s._volume = 1) (hf : s._filterFlag = false) (hvs : s._voiceSource = 0)
    (h : ∀ f ∈ fs, (-32767 ≤ f.1 ∧ f.1 ≤ 32767) ∧ (-32767 ≤ f.2 ∧ f.2 ≤ 32767)) :
    (audioDataProcessCallback i0 s (encodeFrames fs) (4 * fs.length)).i2sOut
      = s.i2sOut ++ fs := by
  have hr : ∀ f ∈ fs, (-32768 ≤ f.1 ∧ f.1 ≤ 32767) ∧ (-32768 ≤ f.2 ∧ f.2 ≤ 32767) :=
    fun f hm => ⟨⟨by have := (h f hm).1.1; omega, (h f hm).1.2⟩,
      ⟨by have := (h f hm).2.1; omega, (h f hm).2.2⟩⟩
  have hv : s._voiceSource ≤ 1 := by omega
  rw [audioDataProcessCallback_volume i0 s _ _ hf hv]
  have e : 4 * fs.length / 4 = fs.length := by omega
  have r := readFrames_encodeFrames fs [] hr
  rw [List.append_nil] at r
  simp only [e, r, map_routeFrame_straight s fs hvol hvs hr]

theorem C2_unit_gain_is_identity_witness :
    (audioDataProcessCallback 0 (mkState 1 0 false)
        (encodeFrames [(1, -1), (32767, -32767)]) (4 * [((1 : Int), (-1 : Int)),
          (32767, -32767)].length)).i2sOut
      = (mkState 1 0 false).i2sOut ++ [(1, -1), (32767, -32767)] :=
  C2_unit_gain_is_identity 0 (mkState 1 0 false) [(1, -1), (32767, -32767)] rfl rfl rfl
    (by decide)

/-- C3.  With unit gain, filtering disabled and the swap selector set
(`_voiceSource = 1`), `audioDataProcessCallback` writes every frame with its
two samples exchanged, and routing the written frames once more gives back
the original frames; the selector itself returns to its value after two calls
of `reverseLeftRightChannels`. -/
theorem C3_swap_is_involution (i0 : Nat) (s : State) (fs : List (Int × Int))
    (hvol : s._volume = 1) (hf : s._filterFlag = false) (hvs : s._voiceSource = 1)
    (h : ∀ f ∈ fs, (-32768 ≤ f.1 ∧ f.1 ≤ 32767) ∧ (-32768 ≤ f.2 ∧ f.2 ≤ 32767)) :
    written i0 s (encodeFrames fs) (4 * fs.length) = fs.map Prod.swap ∧
    written i0 s (encodeFrames (written i0 s (encodeFrames fs) (4 * fs.length)))
      (4 * (written i0 s (encodeFrames fs) (4 * fs.length)).length) = fs ∧
    reverseLeftRightChannels (reverseLeftRightChannels s) = s := by
  have hv : s._voiceSource ≤ 1 := by omega
  have h1 : written i0 s (encodeFrames fs) (4 * fs.length) = fs.map Prod.swap := by
    rw [written_encodeFrames i0 s fs hf hv h, map_routeFrame_swapped s fs hvol hvs h]
  have hs : ∀ f ∈ fs.map Prod.swap,
      (-32768 ≤ f.1 ∧ f.1 ≤ 32767) ∧ (-32768 ≤ f.2 ∧ f.2 ≤ 32767) := by
    intro f hm
    obtain ⟨g, hg, rfl⟩ := List.mem_map.1 hm
    exact ⟨(h g hg).2, (h g hg).1⟩
  refine ⟨h1, ?_, ?_⟩
  · rw [h1, written_encodeFrames i0 s _ hf hv hs, map_routeFrame_swapped s _ hvol hvs hs,
      List.map_map]
    simp
  · cases s
    simp only at hvs
    subst hvs
    rfl

theorem C3_swap_is_involution_witness :
    written 0 (mkState 1 1 false) (encodeFrames [(5, -7), (-32768, 32767)])
        (4 * [((5 : Int), (-7 : Int)), (-32768, 32767)].length)
      = [((5 : Int), (-7 : Int)), (-32768, 32767)].map Prod.swap ∧
    written 0 (mkState 1 1 false)
        (encodeFrames (written 0 (mkState 1 1 false) (encodeFrames [(5, -7), (-32768, 32767)])
          (4 * [((5 : Int), (-7 : Int)), (-32768, 32767)].length)))
        (4 * (written 0 (mkState 1 1 false) (encodeFrames [(5, -7), (-32768, 32767)])
          (4 * [((5 : Int), (-7 : Int)), (-32768, 32767)].length)).length)
      = [(5, -7), (-32768, 32767)] ∧
    reverseLeftRightChannels (reverseLeftRightChannels (mkState 1 1 false))
      = mkState 1 1 false :=
  C3_swap_is_involution 0 (mkState 1 1 false) [(5, -7), (-32768, 32767)] rfl rfl rfl
    (by decide)

/-! ## The filter cascade -/

theorem process_eq_sectionSpec (b : Biquad) (x : ℚ) : b.process x = sectionSpec b x := rfl

theorem cascadeLoop_three (b0 b1 b2 : Biquad) (x : ℚ) :
    cascadeLoop (NUMBER_OF_FILTER - 0) 0 [b0, b1, b2] x = processCascade [b0, b1, b2] x := by
  simp [cascadeLoop, processCascade, NUMBER_OF_FILTER, process_eq_sectionSpec]

theorem cascadeLoop_eq_processCascade (bank : List Biquad) (x : ℚ)
    (h : bank.length = NUMBER_OF_FILTER) :
    cascadeLoop (NUMBER_OF_FILTER - 0) 0 bank x = processCascade bank x := by
  have h3 : bank.length = 3 := h
  obtain ⟨b0, b1, b2, rfl⟩ := List.length_eq_three.1 h3
  exact cascadeLoop_three b0 b1 b2 x

theorem truncate_range (x : ℚ) (h1 : -32767 ≤ x) (h2 : x ≤ 32767) :
    -32767 ≤ truncate x ∧ truncate x ≤ 32767 := by
  unfold truncate
  split
  · next h0 =>
    refine ⟨?_, ?_⟩
    · have : (0 : Int) ≤ ⌊x⌋ := Int.floor_nonneg.2 h0
      omega
    · have : ((⌊x⌋ : Int) : ℚ) ≤ 32767 := le_trans (Int.floor_le x) h2
      exact_mod_cast this
  · next h0 =>
    refine ⟨?_, ?_⟩
    · have : ((-32767 : Int) : ℚ) ≤ ((⌈x⌉ : Int) : ℚ) := by
        push_cast
        exact le_trans h1 (Int.le_ceil x)
      exact_mod_cast this
    · have : ⌈x⌉ ≤ 0 := Int.ceil_le.2 (by push_cast; exact le_of_lt (not_le.1 h0))
      omega

theorem constrain_eq_clamp (x : ℚ) :
    constrain x (-32767) 32767 = max (-32767) (min x 32767) := by
  unfold constrain
  split
  · next h => rw [min_eq_left (by linarith), max_eq_left (le_of_lt h)]
  · next h =>
    split
    · next h2 => rw [min_eq_right (le_of_lt h2), max_eq_right (by norm_num)]
    · next h2 => rw [min_eq_left (not_lt.1 h2), max_eq_right (not_lt.1 h)]

theorem castInt16_constrain (x : ℚ) :
    castInt16 (constrain x (-32767) 32767) = clampTruncate x := by
  unfold castInt16 clampTruncate
  rw [constrain_eq_clamp]
  have hr := truncate_range (max (-32767) (min x 32767)) (le_max_left _ _)
    (max_le (by norm_num) (min_le_right _ _))
  exact wrap16_of_range _ (by omega) hr.2

/-- C4.  With both loop counters starting at 0, `filterToWork` returns the
input folded through all sections of the low-pass bank in index order and then
through all sections of the high-pass bank in index order (each section being the
recurrence of `sectionSpec`), clamped to [-32767, 32767] and truncated to an
integer; both banks are applied and end in the states the two passes leave. -/
theorem C4_filterToWork_is_cascade (filterHP filterLP : List Biquad) (rawData : ℚ)
    (hHP : filterHP.length = NUMBER_OF_FILTER) (hLP : filterLP.length = NUMBER_OF_FILTER) :
    filterToWork 0 0 filterHP filterLP rawData =
      (clampTruncate (processCascade filterHP (processCascade filterLP rawData).1).1,
       (processCascade filterHP (processCascade filterLP rawData).1).2,
       (processCascade filterLP rawData).2) := by
  unfold filterToWork
  simp only [cascadeLoop_eq_processCascade filterLP rawData hLP,
    cascadeLoop_eq_processCascade filterHP _ hHP, castInt16_constrain]

theorem C4_filterToWork_is_cascade_witness :
    filterToWork 0 0 (gainBank 2) (gainBank 3) 1000 =
      (clampTruncate (processCascade (gainBank 2) (processCascade (gainBank 3) 1000).1).1,
       (processCascade (gainBank 2) (processCascade (gainBank 3) 1000).1).2,
       (processCascade (gainBank 3) 1000).2) :=
  C4_filterToWork_is_cascade (gainBank 2) (gainBank 3) 1000 rfl rfl

/-! ## One section at rest -/

/-- C5.  For every choice of coefficients, a section whose delay registers
are zero, fed any number of zero samples through `process`, returns 0 for each
of them and has zero delay registers afterwards (so after every step). -/
theorem C5_zero_input_stays_at_rest (b : Biquad) (n : Nat) (h1 : b.z1 = 0) (h2 : b.z2 = 0) :
    (b.processAll (List.replicate n 0)).1 = List.replicate n 0 ∧
    (b.processAll (List.replicate n 0)).2.z1 = 0 ∧
    (b.processAll (List.replicate n 0)).2.z2 = 0 := by
  induction n generalizing b with
  | zero => exact ⟨rfl, h1, h2⟩
  | succ n ih =>
    have hp : b.process 0 = (0, b) := by
      cases b
      simp only [Biquad.process] at *
      subst h1 h2
      simp
    simp only [List.replicate_succ, Biquad.processAll, hp]
    obtain ⟨i1, i2, i3⟩ := ih b h1 h2
    exact ⟨by rw [i1], i2, i3⟩

theorem C5_zero_input_stays_at_rest_witness :
    ((gainSection 2).processAll (List.replicate 4 0)).1 = List.replicate 4 0 ∧
    ((gainSection 2).processAll (List.replicate 4 0)).2.z1 = 0 ∧
    ((gainSection 2).processAll (List.replicate 4 0)).2.z2 = 0 :=
  C5_zero_input_stays_at_rest (gainSection 2) 4 rfl rfl

/-! ## The header parse of `playWAV` -/

theorem fread_append (a b : List Nat) (p n : Nat) (h : a.length = n) :
    fread { rest := a ++ b, pos := p } n = (a, { rest := b, pos := p + n }) := by
  subst h
  simp [fread]

theorem playWAV_header_canonical
    (size fmtSize code channels rate byteRate align bits tl : List Nat)
    (h1 : size.length = 4) (h2 : fmtSize.length = 4) (h3 : code.length = 2)
    (h4 : channels.length = 2) (h5 : rate.length = 4) (h6 : byteRate.length = 4)
    (h7 : align.length = 2) (h8 : bits.length = 2) :
    playWAV_header
      (fopen (strRIFF ++ (size ++ (strWAVE ++ ([102, 109, 116, 32] ++ (fmtSize ++ (code ++
        (channels ++ (rate ++ (byteRate ++ (align ++ (bits ++ tl))))))))))))
      callocWav
      = some (headerOf size fmtSize code channels rate byteRate align bits,
          { rest := tl, pos := 36 }) := by
  unfold playWAV_header fopen
  simp only [fread_append _ _ _ 4 (show strRIFF.length = 4 from rfl),
    fread_append _ _ _ 4 h1, fread_append _ _ _ 4 (show strWAVE.length = 4 from rfl),
    fread_append _ _ _ 4 (show [102, 109, 116, 32].length = 4 from rfl),
    fread_append _ _ _ 4 h2, fread_append _ _ _ 2 h3, fread_append _ _ _ 2 h4,
    fread_append _ _ _ 4 h5, fread_append _ _ _ 4 h6, fread_append _ _ _ 2 h7,
    fread_append _ _ _ 2 h8]
  rfl

theorem store_full (buf got : List Nat) (h : buf.length ≤ got.length) : store buf got = got := by
  simp [store, List.drop_eq_nil_of_le h]

theorem playWAV_scan_data_first (fuel : Nat) (h : sWavParse_t) (ds tl : List Nat) (p : Nat)
    (hds : ds.length = 4) (h1 : h.dataType1.length = 1) (h2 : h.dataType2.length = 3) :
    playWAV_scan (fuel + 1) h { rest := [100] ++ ([97, 116, 97] ++ (ds ++ tl)), pos := p }
      = some ({ h with dataType1 := [100], dataType2 := [97, 116, 97], dataSize := leValue ds },
          { rest := tl, pos := p + 8 }, false) := by
  unfold playWAV_scan
  simp only [fread_append _ _ _ 1 (show [100].length = 1 from rfl),
    fread_append _ _ _ 3 (show [97, 116, 97].length = 3 from rfl), fread_append _ _ _ 4 hds]
  rw [store_full _ [100] (by simp [h1]), store_full _ [97, 116, 97] (by simp [h2])]
  simp [strncmp, strD, strAta]

theorem wavLayout_eq (size fmtSize code channels rate byteRate align bits dataSize payload :
    List Nat) :
    wavLayout size fmtSize code channels rate byteRate align bits dataSize payload =
      strRIFF ++ (size ++ (strWAVE ++ ([102, 109, 116, 32] ++ (fmtSize ++ (code ++ (channels ++
        (rate ++ (byteRate ++ (align ++ (bits ++ ([100] ++ ([97, 116, 97] ++ (dataSize ++
          payload))))))))))))) := by
  simp [wavLayout]

theorem playWAV_parse_canonical
    (size fmtSize code channels rate byteRate align bits dataSize payload : List Nat)
    (h1 : size.length = 4) (h2 : fmtSize.length = 4) (h3 : code.length = 2)
    (h4 : channels.length = 2) (h5 : rate.length = 4) (h6 : byteRate.length = 4)
    (h7 : align.length = 2) (h8 : bits.length = 2) (h9 : dataSize.length = 4) :
    playWAV_parse (wavLayout size fmtSize code channels rate byteRate align bits dataSize payload)
      = some ({ headerOf size fmtSize code channels rate byteRate align bits with
                dataType1 := [100], dataType2 := [97, 116, 97], dataSize := leValue dataSize },
              { rest := payload, pos := 44 }, false) := by
  unfold playWAV_parse
  rw [wavLayout_eq, playWAV_header_canonical _ _ _ _ _ _ _ _ _ h1 h2 h3 h4 h5 h6 h7 h8]
  simp only [Option.some_bind]
  rw [playWAV_scan_data_first _ (headerOf size fmtSize code channels rate byteRate align bits)
    _ _ _ h9 rfl rfl]

/-- C9.  For every byte stream of the canonical layout, the header parse of
`playWAV` (fixed part, then data-chunk scan) succeeds (the scan leaves after
reading `dataSize`, not through `free(wav)`), yields `sampleRate`,
`numChannels` and `dataSize` equal to the little-endian values of the
corresponding input fields, and leaves the read cursor at the first payload
byte (offset 44, with exactly the payload left to read). -/
theorem C9_header_parse_extracts_fields
    (size fmtSize code channels rate byteRate align bits dataSize payload : List Nat)
    (h1 : size.length = 4) (h2 : fmtSize.length = 4) (h3 : code.length = 2)
    (h4 : channels.length = 2) (h5 : rate.length = 4) (h6 : byteRate.length = 4)
    (h7 : align.length = 2) (h8 : bits.length = 2) (h9 : dataSize.length = 4) :
    ∃ h fp,
      playWAV_parse
        (wavLayout size fmtSize code channels rate byteRate align bits dataSize payload)
        = some (h, fp, false) ∧
      h.sampleRate = leValue rate ∧ h.numChannels = leValue channels ∧
      h.dataSize = leValue dataSize ∧ fp.rest = payload ∧ fp.pos = 44 :=
  ⟨_, _, playWAV_parse_canonical size fmtSize code channels rate byteRate align bits dataSize
    payload h1 h2 h3 h4 h5 h6 h7 h8 h9, rfl, rfl, rfl, rfl, rfl⟩

theorem C9_header_parse_extracts_fields_witness :
    ∃ h fp,
      playWAV_parse
        (wavLayout [44, 0, 0, 0] [16, 0, 0, 0] [1, 0] [2, 0] [68, 172, 0, 0] [16, 177, 2, 0]
          [4, 0] [16, 0] [8, 0, 0, 0] [1, 0, 255, 255, 100, 97, 116, 97])
        = some (h, fp, false) ∧
      h.sampleRate = leValue [68, 172, 0, 0] ∧ h.numChannels = leValue [2, 0] ∧
      h.dataSize = leValue [8, 0, 0, 0] ∧
      fp.rest = [1, 0, 255, 255, 100, 97, 116, 97] ∧ fp.pos = 44 :=
  C9_header_parse_extracts_fields _ _ _ _ _ _ _ _ _ _ rfl rfl rfl rfl rfl rfl rfl rfl rfl

/-! ## The playback task: commands and waits -/

theorem setMark_self (s : State) : setMark s s.SDAmplifierMark = s := rfl

theorem fread_rest_le (fp : FILE) (n : Nat) : (fread fp n).2.rest.length ≤ fp.rest.length := by
  simp only [fread, List.length_drop]
  omega

theorem readInt16_zeros (m k : Nat) : readInt16 (List.replicate m 0) k = 0 := by
  have h : ∀ i, (List.replicate m 0).getD i 0 = 0 := by
    intro i
    simp only [List.getD_eq_getElem?_getD, List.getElem?_replicate]
    split <;> rfl
  unfold readInt16
  rw [h, h]
  rfl

theorem readFrames_zeros (m n k : Nat) :
    readFrames (List.replicate m 0) n k = List.replicate n (0, 0) := by
  induction n generalizing k with
  | zero => rfl
  | succ n ih => simp only [readFrames, readInt16_zeros, ih, List.replicate_succ]

theorem routeFrame_zero (s : State) (hv : s._voiceSource ≤ 1) : routeFrame s (0, 0) = (0, 0) := by
  have hc : castInt16 (((0 : Int) : ℚ) * s._volume) = 0 := by
    rw [Int.cast_zero, zero_mul]
    exact castInt16_intCast 0 (by decide) (by decide)
  unfold routeFrame
  simp only [hc]
  have : s._voiceSource = 0 ∨ s._voiceSource = 1 := by omega
  rcases this with h | h <;> rw [h] <;> rfl

theorem audioDataProcessCallback_zeros (i0 : Nat) (s : State) (hf : s._filterFlag = false)
    (hv : s._voiceSource ≤ 1) :
    audioDataProcessCallback i0 s (List.replicate 800 0) 800 =
      { s with i2sOut := s.i2sOut ++ List.replicate 200 (0, 0) } := by
  rw [audioDataProcessCallback_volume i0 s _ _ hf hv, readFrames_zeros]
  simp only [show 800 / 4 = 200 from rfl, List.map_replicate, routeFrame_zero s hv]

theorem store_zeros (k : Nat) (hk : k ≤ 800) :
    store (List.replicate 800 0) (List.replicate k 0) = List.replicate 800 0 := by
  simp only [store, List.length_replicate, List.drop_replicate, List.append_replicate_replicate]
  congr 1
  omega

theorem playWAV_stream_zeros_step (i0 fuel L p : Nat) (env : List (Option Nat))
    (h : sWavParse_t) (s : State) (hdata : h.data = List.replicate 800 0)
    (hf : s._filterFlag = false) (hv : s._voiceSource ≤ 1) (hL : 0 < L) :
    playWAV_stream i0 (fuel + 1) env h { rest := List.replicate L 0, pos := p } s =
      if SD_AMPLIFIER_STOP = (readMark env
          { s with i2sOut := s.i2sOut ++ List.replicate 200 (0, 0) }).1.SDAmplifierMark then
        TaskResult.finished
          { (readMark env { s with i2sOut := s.i2sOut ++ List.replicate 200 (0, 0) }).1 with
            SDAmplifierMark := SD_AMPLIFIER_STOP }
          (readMark env { s with i2sOut := s.i2sOut ++ List.replicate 200 (0, 0) }).2
      else
        match pauseWait (readMark env { s with i2sOut := s.i2sOut ++ List.replicate 200 (0, 0) }).2
            (readMark env { s with i2sOut := s.i2sOut ++ List.replicate 200 (0, 0) }).1 with
        | none => TaskResult.paused
            { (readMark env { s with i2sOut := s.i2sOut ++ List.replicate 200 (0, 0) }).1 with
              SDAmplifierMark := SD_AMPLIFIER_PAUSE }
            { rest := List.replicate (L - 800) 0, pos := p + min 800 L }
        | some w => playWAV_stream i0 fuel w.2 h
            { rest := List.replicate (L - 800) 0, pos := p + min 800 L } w.1 := by
  have e1 : fread { rest := List.replicate L 0, pos := p } 800 =
      (List.replicate (min 800 L) 0, { rest := List.replicate (L - 800) 0, pos := p + min 800 L }) := by
    simp [fread, List.take_replicate, List.drop_replicate]
  have e2 : ¬ (List.replicate (min 800 L) 0).length = 0 := by
    simp only [List.length_replicate]
    omega
  have e3 : store h.data (List.replicate (min 800 L) 0) = List.replicate 800 0 := by
    rw [hdata]
    exact store_zeros _ (min_le_left _ _)
  have e4 : ({ h with data := List.replicate 800 0 } : sWavParse_t) = h := by
    rw [← hdata]
  simp only [playWAV_stream, e1, if_neg e2, e3, e4, audioDataProcessCallback_zeros i0 s hf hv]

theorem playWAV_stream_zeros (i0 fuel L p : Nat) (h : sWavParse_t) (s : State)
    (hdata : h.data = List.replicate 800 0) (hf : s._filterFlag = false)
    (hv : s._voiceSource ≤ 1) (hplay : s.SDAmplifierMark = SD_AMPLIFIER_PLAY) (hfuel : L < fuel) :
    playWAV_stream i0 fuel [] h { rest := List.replicate L 0, pos := p } s =
      TaskResult.finished
        { s with SDAmplifierMark := SD_AMPLIFIER_STOP,
                 i2sOut := s.i2sOut ++ List.replicate (200 * ((L + 799) / 800)) (0, 0) } [] := by
  induction fuel generalizing L p s with
  | zero => omega
  | succ fuel ih =>
    by_cases hL : L = 0
    · subst hL
      simp [playWAV_stream, fread]
    · rw [playWAV_stream_zeros_step i0 fuel L p [] h s hdata hf hv (by omega)]
      have hn1 : ¬ SD_AMPLIFIER_STOP = s.SDAmplifierMark := by rw [hplay]; decide
      have hn2 : ¬ SD_AMPLIFIER_PAUSE = s.SDAmplifierMark := by rw [hplay]; decide
      simp only [readMark, pauseWait, if_neg hn1, if_neg hn2]
      rw [ih (L - 800) (p + min 800 L)
        { s with i2sOut := s.i2sOut ++ List.replicate 200 (0, 0) } hf hv hplay (by omega)]
      have e : 200 + 200 * ((L - 800 + 799) / 800) = 200 * ((L + 799) / 800) := by omega
      simp only [List.append_assoc, List.append_replicate_replicate, e]

theorem leValue_leBytes (n v : Nat) : leValue (leBytes n v) = v % 256 ^ n := by
  induction n generalizing v with
  | zero => simp [leBytes, leValue, Nat.mod_one]
  | succ n ih =>
    simp only [leBytes, leValue, ih, Nat.mod_mod]
    rw [pow_succ, Nat.mul_comm (256 ^ n) 256, Nat.mod_mul]

theorem leBytes_length (n v : Nat) : (leBytes n v).length = n := by
  induction n generalizing v with
  | zero => rfl
  | succ n ih => simp [leBytes, ih]

theorem playWAV_body_silentWav (i0 : Nat) (fs : String → Option (List Nat)) (s : State)
    (sampleRate : Nat) (hfile : fs s.fileName = some (silentWav sampleRate))
    (hf : s._filterFlag = false) (hv : s._voiceSource ≤ 1)
    (hplay : s.SDAmplifierMark = SD_AMPLIFIER_PLAY) :
    playWAV_body i0 fs [] s =
      TaskResult.finished
        { s with SDAmplifierMark := SD_AMPLIFIER_STOP,
                 i2sSampleRate := sampleRate % 256 ^ 4,
                 i2sOut := s.i2sOut ++
                   List.replicate (200 * ((4 * sampleRate + 799) / 800)) (0, 0) } [] := by
  have hp := playWAV_parse_canonical (leBytes 4 (36 + (List.replicate (4 * sampleRate) 0).length))
    (leBytes 4 16) (leBytes 2 1) (leBytes 2 2) (leBytes 4 sampleRate)
    (leBytes 4 (4 * sampleRate)) (leBytes 2 4) (leBytes 2 16)
    (leBytes 4 (List.replicate (4 * sampleRate) 0).length) (List.replicate (4 * sampleRate) 0)
    (leBytes_length _ _) (leBytes_length _ _) (leBytes_length _ _) (leBytes_length _ _)
    (leBytes_length _ _) (leBytes_length _ _) (leBytes_length _ _) (leBytes_length _ _)
    (leBytes_length _ _)
  have hlen : 4 * sampleRate < (silentWav sampleRate).length + 1 := by
    simp [silentWav, wavFile, wavLayout, leBytes_length]
    omega
  unfold playWAV_body
  rw [hfile]
  simp only
  unfold playWAV_parse at hp
  change (playWAV_header (fopen (silentWav sampleRate)) callocWav).bind _ = _ at hp
  cases hh : playWAV_header (fopen (silentWav sampleRate)) callocWav with
  | none => rw [hh] at hp; exact absurd hp (by simp)
  | some hdr =>
    rw [hh] at hp
    simp only [Option.some_bind] at hp
    simp only
    change playWAV_scan ((silentWav sampleRate).length + 1) hdr.1 hdr.2 = _ at hp
    rw [hp]
    simp only
    refine (playWAV_stream_zeros i0 _ _ _ _
      { s with i2sSampleRate := leValue (leBytes 4 sampleRate) } rfl hf hv hplay hlen).trans ?_
    simp only [leValue_leBytes]

theorem playWAV_body_canonical (i0 : Nat) (fs : String → Option (List Nat))
    (env : List (Option Nat)) (s : State)
    (size fmtSize code channels rate byteRate align bits dataSize payload : List Nat)
    (hfile : fs s.fileName =
      some (wavLayout size fmtSize code channels rate byteRate align bits dataSize payload))
    (h1 : size.length = 4) (h2 : fmtSize.length = 4) (h3 : code.length = 2)
    (h4 : channels.length = 2) (h5 : rate.length = 4) (h6 : byteRate.length = 4)
    (h7 : align.length = 2) (h8 : bits.length = 2) (h9 : dataSize.length = 4) :
    playWAV_body i0 fs env s =
      playWAV_stream i0
        ((wavLayout size fmtSize code channels rate byteRate align bits dataSize payload).length
          + 1) env
        { headerOf size fmtSize code channels rate byteRate align bits with
          dataType1 := [100], dataType2 := [97, 116, 97], dataSize := leValue dataSize }
        { rest := payload, pos := 44 } { s with i2sSampleRate := leValue rate } := by
  have hp := playWAV_parse_canonical size fmtSize code channels rate byteRate align bits dataSize
    payload h1 h2 h3 h4 h5 h6 h7 h8 h9
  unfold playWAV_body
  rw [hfile]
  simp only
  unfold playWAV_parse at hp
  cases hh : playWAV_header
      (fopen (wavLayout size fmtSize code channels rate byteRate align bits dataSize payload))
      callocWav with
  | none => rw [hh] at hp; exact absurd hp (by simp)
  | some hdr =>
    rw [hh] at hp
    simp only [Option.some_bind] at hp
    simp only
    rw [hp]
    rfl

theorem playWAV_body_silentWav_stream (i0 : Nat) (fs : String → Option (List Nat))
    (env : List (Option Nat)) (s : State) (sampleRate : Nat)
    (hfile : fs s.fileName = some (silentWav sampleRate)) :
    playWAV_body i0 fs env s =
      playWAV_stream i0 ((silentWav sampleRate).length + 1) env (silentHeader sampleRate)
        { rest := List.replicate (4 * sampleRate) 0, pos := 44 }
        { s with i2sSampleRate := sampleRate % 256 ^ 4 } := by
  have hb := playWAV_body_canonical i0 fs env s
    (leBytes 4 (36 + (List.replicate (4 * sampleRate) 0).length))
    (leBytes 4 16) (leBytes 2 1) (leBytes 2 2) (leBytes 4 sampleRate)
    (leBytes 4 (4 * sampleRate)) (leBytes 2 4) (leBytes 2 16)
    (leBytes 4 (List.replicate (4 * sampleRate) 0).length) (List.replicate (4 * sampleRate) 0)
    hfile (leBytes_length _ _)
    (leBytes_length _ _) (leBytes_length _ _) (leBytes_length _ _) (leBytes_length _ _)
    (leBytes_length _ _) (leBytes_length _ _) (leBytes_length _ _) (leBytes_length _ _)
  rw [leValue_leBytes 4 sampleRate] at hb
  exact hb

theorem silentWav_length (sampleRate : Nat) :
    (silentWav sampleRate).length = 44 + 4 * sampleRate := by
  simp [silentWav, wavFile, wavLayout, leBytes_length, strRIFF, strWAVE]
  omega

theorem playWAV_loop_succ (i0 : Nat) (fs : String → Option (List Nat)) (fuel : Nat)
    (env : List (Option Nat)) (s : State) :
    playWAV_loop i0 fs (fuel + 1) env s =
      match idleWait env s with
      | none => TaskResult.idle { s with SDAmplifierMark := SD_AMPLIFIER_STOP }
      | some w =>
        match playWAV_body i0 fs w.2 w.1 with
        | TaskResult.finished s1 env1 => playWAV_loop i0 fs fuel env1 s1
        | r => r := rfl

theorem playWAV_one_pass (i0 : Nat) (fs : String → Option (List Nat)) (s s1 : State)
    (hne : s.SDAmplifierMark ≠ SD_AMPLIFIER_STOP)
    (hb : playWAV_body i0 fs [] s = TaskResult.finished s1 [])
    (h1 : s1.SDAmplifierMark = SD_AMPLIFIER_STOP) :
    playWAV i0 fs [] s = TaskResult.idle s1 := by
  have hi : idleWait [] s = some (s, []) := by
    simp only [idleWait]
    rw [if_neg (fun e => hne e.symm)]
  have hi1 : idleWait [] s1 = none := by
    simp only [idleWait]
    rw [if_pos h1.symm]
  unfold playWAV
  rw [show ([] : List (Option Nat)).length + 2 = 1 + 1 from rfl, playWAV_loop_succ, hi]
  simp only
  rw [hb]
  simp only
  rw [playWAV_loop_succ, hi1]
  simp only
  rw [← h1]

theorem playWAV_body_silence_44100 :
    playWAV_body 0 (singleFile "/sd/a.wav" (silentWav 44100)) [] (sdState SD_AMPLIFIER_PLAY) =
      TaskResult.finished
        { sdState SD_AMPLIFIER_STOP with
          i2sSampleRate := 44100, i2sOut := List.replicate 44200 (0, 0) } [] := by
  have hb := playWAV_body_silentWav 0 (singleFile "/sd/a.wav" (silentWav 44100))
    (sdState SD_AMPLIFIER_PLAY) 44100 (by simp [singleFile, sdState]) rfl (by decide) rfl
  have e1 : 44100 % 256 ^ 4 = 44100 := by norm_num
  have e2 : 200 * ((4 * 44100 + 799) / 800) = 44200 := by norm_num
  have e3 : (sdState SD_AMPLIFIER_PLAY).i2sOut = [] := rfl
  rw [e1, e2, e3, List.nil_append] at hb
  exact hb

/-- C8 (the code at the failing input).  One second of 16-bit stereo silence
at 44100 Hz is 176400 payload bytes, that is 220 full chunks of 800 bytes and
one of 400.  The task hands every chunk to `audioDataProcessCallback` with the
fixed length 800, so with filtering disabled it writes 221 * 200 = 44200 zero
frames, not 44100, before it sets the mark to Stop and waits. -/
theorem C8_silence_at_44100_writes_44200_frames :
    playWAV 0 (singleFile "/sd/a.wav" (silentWav 44100)) [] (sdState SD_AMPLIFIER_PLAY) =
      TaskResult.idle
        { sdState SD_AMPLIFIER_STOP with
          i2sSampleRate := 44100, i2sOut := List.replicate 44200 (0, 0) } :=
  playWAV_one_pass 0 _ _ _ (by decide) playWAV_body_silence_44100 rfl

/-! ## Commands while stopped -/

theorem playWAV_stream_zeros_paused (i0 fuel L p : Nat) (h : sWavParse_t) (s : State)
    (hdata : h.data = List.replicate 800 0) (hf : s._filterFlag = false)
    (hv : s._voiceSource ≤ 1) (hL : 0 < L) (hp : s.SDAmplifierMark = SD_AMPLIFIER_PAUSE) :
    playWAV_stream i0 (fuel + 1) [] h { rest := List.replicate L 0, pos := p } s =
      TaskResult.paused { s with i2sOut := s.i2sOut ++ List.replicate 200 (0, 0) }
        { rest := List.replicate (L - 800) 0, pos := p + min 800 L } := by
  rw [playWAV_stream_zeros_step i0 fuel L p [] h s hdata hf hv hL]
  have hn1 : ¬ SD_AMPLIFIER_STOP = s.SDAmplifierMark := by rw [hp]; decide
  simp only [readMark, pauseWait]
  rw [if_neg hn1, if_pos hp.symm]
  simp only
  rw [← hp]

theorem playWAV_one_pass_paused (i0 : Nat) (fs : String → Option (List Nat)) (s s1 : State)
    (fp : FILE) (hne : s.SDAmplifierMark ≠ SD_AMPLIFIER_STOP)
    (hb : playWAV_body i0 fs [] s = TaskResult.paused s1 fp) :
    playWAV i0 fs [] s = TaskResult.paused s1 fp := by
  have hi : idleWait [] s = some (s, []) := by
    simp only [idleWait]
    rw [if_neg (fun e => hne e.symm)]
  unfold playWAV
  rw [show ([] : List (Option Nat)).length + 2 = 1 + 1 from rfl, playWAV_loop_succ, hi]
  simp only
  rw [hb]

theorem playWAV_body_pause_44100 :
    playWAV_body 0 (singleFile "/sd/a.wav" (silentWav 44100)) []
        (SDPlayerControl (sdState SD_AMPLIFIER_STOP) SD_AMPLIFIER_PAUSE) =
      TaskResult.paused
        { sdState SD_AMPLIFIER_PAUSE with
          i2sSampleRate := 44100, i2sOut := List.replicate 200 (0, 0) }
        { rest := List.replicate 175600 0, pos := 844 } := by
  have hb := playWAV_body_silentWav_stream 0 (singleFile "/sd/a.wav" (silentWav 44100)) []
    (SDPlayerControl (sdState SD_AMPLIFIER_STOP) SD_AMPLIFIER_PAUSE) 44100
    (by simp [singleFile, sdState, SDPlayerControl])
  rw [silentWav_length,
    playWAV_stream_zeros_paused 0 _ _ _ (silentHeader 44100) _ rfl rfl (by decide)
      (by norm_num) rfl] at hb
  have e1 : 44100 % 256 ^ 4 = 44100 := by norm_num
  have e2 : 4 * 44100 - 800 = 175600 := by norm_num
  have e3 : 44 + min 800 (4 * 44100) = 844 := by norm_num
  have e4 : (SDPlayerControl (sdState SD_AMPLIFIER_STOP) SD_AMPLIFIER_PAUSE).i2sOut = [] := rfl
  rw [e1, e2, e3, e4, List.nil_append] at hb
  exact hb

/-- C6 (the code at the failing input).  From the Stopped state, with a
silent one-second 44100 Hz file selected, the task waits in its Stop loop as
long as no command arrives.  `SDPlayerControl(SD_AMPLIFIER_PAUSE)` then leaves
the mark at Pause, not Stop, where the claim has the player stay Stopped; the
playback task leaves its Stop wait, opens the file, parses the header, writes
the 200 frames of the first chunk and only then waits in the Pause loop, the
file open at offset 844. -/
theorem C6_pause_while_stopped_starts_playback :
    idleWait [] (sdState SD_AMPLIFIER_STOP) = none ∧
    (SDPlayerControl (sdState SD_AMPLIFIER_STOP) SD_AMPLIFIER_PAUSE).SDAmplifierMark
      ≠ SD_AMPLIFIER_STOP ∧
    playWAV 0 (singleFile "/sd/a.wav" (silentWav 44100)) []
        (SDPlayerControl (sdState SD_AMPLIFIER_STOP) SD_AMPLIFIER_PAUSE) =
      TaskResult.paused
        { sdState SD_AMPLIFIER_PAUSE with
          i2sSampleRate := 44100, i2sOut := List.replicate 200 (0, 0) }
        { rest := List.replicate 175600 0, pos := 844 } :=
  ⟨rfl, by decide, playWAV_one_pass_paused 0 _ _ _ _ (by decide) playWAV_body_pause_44100⟩

theorem strncmp_eq_zero_iff (s l : List Nat) (hs : ∀ c ∈ s, c ≠ 0) :
    strncmp s l s.length = 0 ↔ l.take s.length = s := by
  induction s generalizing l with
  | nil => simp [strncmp]
  | cons c s ih =>
    have hc : c ≠ 0 := hs c (List.mem_cons_self _ _)
    have ih1 := fun l => ih l (fun d hd => hs d (List.mem_cons_of_mem _ hd))
    cases l with
    | nil =>
      simp only [List.length_cons, strncmp, List.headD_cons, List.headD_nil, List.take_nil]
      rw [if_pos hc]
      constructor
      · intro h
        have : (c : Int) = 0 := by simpa using h
        exact absurd (by exact_mod_cast this) hc
      · intro h
        exact absurd h (by simp)
    | cons a l =>
      simp only [List.length_cons, strncmp, List.headD_cons, List.tail_cons, List.take_succ_cons]
      by_cases hca : c = a
      · subst hca
        rw [if_neg (by simp), if_neg hc, ih1 l]
        simp
      · rw [if_pos hca]
        constructor
        · intro h
          have : (c : Int) = (a : Int) := by omega
          exact absurd (by exact_mod_cast this) hca
        · intro h
          exact absurd (List.cons.inj h).1.symm hca

theorem playWAV_header_tags (content : List Nat) (hf : sWavParse_t × FILE)
    (hh : playWAV_header (fopen content) callocWav = some hf) :
    content.take 4 = strRIFF ∧ (content.drop 8).take 4 = strWAVE ∧
      (content.drop 12).take 3 = strFmt := by
  simp only [playWAV_header] at hh
  split at hh
  · exact absurd hh (by simp)
  · next h1 =>
    split at hh
    · exact absurd hh (by simp)
    · next h2 =>
      split at hh
      · exact absurd hh (by simp)
      · next h3 =>
        split at hh
        · exact absurd hh (by simp)
        · next h4 =>
          split at hh
          · exact absurd hh (by simp)
          · next h5 =>
            split at hh
            · exact absurd hh (by simp)
            · next h6 =>
              simp only [fread, fopen, List.drop_drop, not_not, callocWav] at h1 h2 h3 h4 h5 h6
              rw [store_full _ _ (by simp [h1])] at h2
              rw [store_full _ _ (by simp only [List.length_replicate]; omega)] at h4
              rw [store_full _ _ (by simp only [List.length_replicate]; omega)] at h6
              have r1 := (strncmp_eq_zero_iff strRIFF _ (by decide)).1 h2
              have r2 := (strncmp_eq_zero_iff strWAVE _ (by decide)).1 h4
              have r3 := (strncmp_eq_zero_iff strFmt _ (by decide)).1 h6
              simp only [List.take_take, strRIFF, strWAVE, strFmt, List.length_cons,
                List.length_nil] at r1 r2 r3
              simp only [strRIFF, strWAVE, strFmt]
              exact ⟨by simpa using r1, by simpa using r2, by simpa using r3⟩

theorem playWAV_scan_no_data (fuel : Nat) (h : sWavParse_t) (fp : FILE)
    (hfuel : fp.rest.length < fuel)
    (hno : ∀ i, (fp.rest.drop i).take 4 ≠ strData) :
    ∃ hd, playWAV_scan fuel h fp = some hd ∧ hd.2.1.rest = [] := by
  induction fuel generalizing h fp with
  | zero => omega
  | succ fuel ih =>
    obtain ⟨rest, pos⟩ := fp
    simp only [playWAV_scan]
    cases rest with
    | nil =>
      have e0 : fread { rest := [], pos := pos } 1 = ([], { rest := [], pos := pos }) := by
        simp [fread]
      simp only [e0, List.length_nil, ne_eq, Nat.zero_ne_one, not_false_eq_true, if_true]
      exact ⟨_, rfl, rfl⟩
    | cons b tl =>
      have e1 : fread { rest := b :: tl, pos := pos } 1 = ([b], { rest := tl, pos := pos + 1 }) := by
        simp [fread]
      simp only [e1, List.length_singleton, ne_eq, not_true_eq_false, if_false]
      simp only [List.length_cons] at hfuel
      have hno1 : ∀ i, (tl.drop i).take 4 ≠ strData := fun i => by
        have := hno (i + 1)
        simpa using this
      split
      · next hd1 =>
        have hb : b = 100 := by
          have hs : (store h.dataType1 [b]).take 1 = [b] := by simp [store]
          have := (strncmp_eq_zero_iff strD _ (by decide)).1 hd1
          rw [show strD.length = 1 from rfl, hs] at this
          simpa [strD] using this
        split
        · next hd2 =>
          by_cases hlen : 3 ≤ tl.length
          · exfalso
            have hs : (store h.dataType2 (fread { rest := tl, pos := pos + 1 } 3).1).take 3
                = tl.take 3 := by
              simp only [store, fread]
              rw [List.take_append_of_le_length (by simp; omega)]
              simp
            have := (strncmp_eq_zero_iff strAta _ (by decide)).1 hd2
            rw [show strAta.length = 3 from rfl, hs] at this
            apply hno 0
            subst hb
            match tl, hlen, this with
            | x :: y :: z :: t, _, this =>
              simp only [List.take_succ_cons, List.take_zero, strAta, List.cons.injEq,
                and_true] at this
              obtain ⟨rfl, rfl, rfl⟩ := this
              rfl
          · refine ⟨_, rfl, ?_⟩
            simp only [fread]
            rw [List.drop_drop, List.drop_eq_nil_of_le (by omega)]
        · obtain ⟨hd, e2, e3⟩ := ih
            { h with dataType1 := store h.dataType1 [b],
                     dataType2 := store h.dataType2 (fread { rest := tl, pos := pos + 1 } 3).1 }
            (fread { rest := tl, pos := pos + 1 } 3).2
            (by have := fread_rest_le { rest := tl, pos := pos + 1 } 3; simp only at this; omega)
            (fun i => by
              have := hno1 (3 + i)
              simpa [fread, List.drop_drop] using this)
          exact ⟨hd, e2, e3⟩
      · obtain ⟨hd, e2, e3⟩ := ih { h with dataType1 := store h.dataType1 [b] }
          { rest := tl, pos := pos + 1 } (by simp only; omega) hno1
        exact ⟨hd, e2, e3⟩

theorem playWAV_stream_eof (i0 fuel p : Nat) (env : List (Option Nat)) (h : sWavParse_t)
    (s : State) :
    playWAV_stream i0 (fuel + 1) env h { rest := [], pos := p } s =
      TaskResult.finished { s with SDAmplifierMark := SD_AMPLIFIER_STOP } env := by
  simp [playWAV_stream, fread]

theorem playWAV_body_bad_tag (i0 : Nat) (fs : String → Option (List Nat))
    (env : List (Option Nat)) (s : State) (content : List Nat)
    (hfile : fs s.fileName = some content)
    (hbad : content.take 4 ≠ strRIFF ∨ (content.drop 8).take 4 ≠ strWAVE ∨
      (content.drop 12).take 3 ≠ strFmt) :
    playWAV_body i0 fs env s =
      TaskResult.finished { s with SDAmplifierMark := SD_AMPLIFIER_STOP } env := by
  unfold playWAV_body
  rw [hfile]
  simp only
  cases hh : playWAV_header (fopen content) callocWav with
  | none => rfl
  | some hf =>
    obtain ⟨t1, t2, t3⟩ := playWAV_header_tags content hf hh
    rcases hbad with hb | hb | hb
    · exact absurd t1 hb
    · exact absurd t2 hb
    · exact absurd t3 hb

theorem playWAV_body_scan_freed (i0 : Nat) (fs : String → Option (List Nat))
    (env : List (Option Nat)) (s : State) (hfreed : scanExit fs s.fileName = some true) :
    playWAV_body i0 fs env s = TaskResult.useAfterFree s env := by
  unfold playWAV_body
  unfold scanExit playWAV_parse at hfreed
  cases hfile : fs s.fileName with
  | none => rw [hfile] at hfreed; exact absurd hfreed (by simp)
  | some content =>
    rw [hfile] at hfreed
    simp only [Option.some_bind] at hfreed
    simp only
    cases hh : playWAV_header (fopen content) callocWav with
    | none => rw [hh] at hfreed; exact absurd hfreed (by simp)
    | some hf =>
      rw [hh] at hfreed
      simp only [Option.some_bind] at hfreed
      simp only
      cases hsc : playWAV_scan (content.length + 1) hf.1 hf.2 with
      | none => rw [hsc] at hfreed; exact absurd hfreed (by simp)
      | some hd =>
        rw [hsc] at hfreed
        simp only [Option.map_some', Option.some.injEq] at hfreed
        simp only [hfreed, if_true]

theorem wavWithoutData_no_tag (i : Nat) : (wavWithoutData.drop i).take 4 ≠ strData := by
  by_cases hi : i < 44
  · interval_cases i <;> decide
  · have hl : wavWithoutData.length = 44 := by decide
    rw [List.drop_eq_nil_of_le (by omega)]
    decide

/-- C10 (the code at the failing input).  The file `wavWithoutData` has the
tags "RIFF", "WAVE" and "fmt " in place and no "data" tag anywhere.  The scan
for the data chunk runs to the end of the file and leaves through
`free(wav); break;`; the pass then goes on to use the freed struct, with
the mark still at Play, where the claim has the pass end with the mark at
Stop.  The three header checks do fail closed: a file with a wrong "RIFF",
"WAVE" or "fmt" tag ends the pass at once with the mark at Stop and the sink
untouched. -/
theorem C10_no_data_tag_runs_into_freed_struct :
    wavWithoutData.take 4 = strRIFF ∧ (wavWithoutData.drop 8).take 4 = strWAVE ∧
    (wavWithoutData.drop 12).take 3 = strFmt ∧
    (∀ i, (wavWithoutData.drop i).take 4 ≠ strData) ∧
    scanExit (singleFile "/sd/a.wav" wavWithoutData) "/sd/a.wav" = some true ∧
    playWAV 0 (singleFile "/sd/a.wav" wavWithoutData) [] (sdState SD_AMPLIFIER_PLAY) =
      TaskResult.useAfterFree (sdState SD_AMPLIFIER_PLAY) [] ∧
    (sdState SD_AMPLIFIER_PLAY).SDAmplifierMark ≠ SD_AMPLIFIER_STOP ∧
    playWAV_body 0 (singleFile "/sd/a.wav" corruptWav) [] (sdState SD_AMPLIFIER_PLAY) =
      TaskResult.finished (sdState SD_AMPLIFIER_STOP) [] := by
  have hx : scanExit (singleFile "/sd/a.wav" wavWithoutData) "/sd/a.wav" = some true := by
    decide
  have hb := playWAV_body_scan_freed 0 (singleFile "/sd/a.wav" wavWithoutData) []
    (sdState SD_AMPLIFIER_PLAY) hx
  refine ⟨by decide, by decide, by decide, wavWithoutData_no_tag, hx, ?_, by decide, ?_⟩
  · unfold playWAV
    rw [show ([] : List (Option Nat)).length + 2 = 1 + 1 from rfl, playWAV_loop_succ,
      show idleWait [] (sdState SD_AMPLIFIER_PLAY) = some (sdState SD_AMPLIFIER_PLAY, []) from rfl]
    simp only
    rw [hb]
  · exact playWAV_body_bad_tag 0 _ [] (sdState SD_AMPLIFIER_PLAY) corruptWav
      (by simp [singleFile, sdState]) (Or.inl (by decide))

/-! ## Configuration calls -/

theorem constrain_eq_max_min (x lo hi : ℚ) (h : lo ≤ hi) :
    constrain x lo hi = max lo (min x hi) := by
  unfold constrain
  split
  · next h1 => rw [min_eq_left (by linarith), max_eq_left (le_of_lt h1)]
  · next h1 =>
    split
    · next h2 => rw [min_eq_right (le_of_lt h2), max_eq_right h]
    · next h2 => rw [min_eq_left (not_lt.1 h2), max_eq_right (not_lt.1 h1)]

theorem setFilterLoop_three (L : Externals) (type : Int) (x : ℚ) (b0 b1 b2 : Biquad) :
    setFilterLoop L type x (NUMBER_OF_FILTER - 0) 0 [b0, b1, b2] =
      [L.setBiquad b0 type x (qualityFactor L 0) 0, L.setBiquad b1 type x (qualityFactor L 1) 0,
       L.setBiquad b2 type x (qualityFactor L 2) 0] := by
  have q : ∀ i : Nat, 1 / (2 * L.cos (L.PI / ((NUMBER_OF_FILTER : ℚ) * 4)
      + (i : ℚ) * L.PI / ((NUMBER_OF_FILTER : ℚ) * 2))) = qualityFactor L i := by
    intro i
    unfold qualityFactor
    rw [mul_comm (NUMBER_OF_FILTER : ℚ) 4, mul_comm (NUMBER_OF_FILTER : ℚ) 2]
  have e3 : NUMBER_OF_FILTER - 0 = 2 + 1 := rfl
  rw [e3]
  simp only [setFilterLoop, q]
  simp [NUMBER_OF_FILTER]

/-- C13.  With the loop counter starting at 0, `setFilter` on a bank of
`NUMBER_OF_FILTER = 3` sections configures every section `i` by one call
`setBiquad(type, cutoff, Q(i), 0)`: the same kind, the same normalized cutoff
`clamp(fc, 2, 20000) / 44100`, peak gain 0 and
`Q(i) = 1 / (2 * cos(pi/(4N) + i*pi/(2N)))`; the bank keeps its three sections. -/
theorem C13_setFilter_configures_every_section (L : Externals) (bank : List Biquad) (type : Int)
    (fc : ℚ) (h : bank.length = NUMBER_OF_FILTER) :
    (setFilter L 0 bank type fc).length = NUMBER_OF_FILTER ∧
    ∀ i, i < NUMBER_OF_FILTER →
      (setFilter L 0 bank type fc).get? i =
        (bank.get? i).map
          (fun b => L.setBiquad b type (normalizedCutoff fc) (qualityFactor L i) 0) := by
  have h3 : bank.length = 3 := h
  obtain ⟨b0, b1, b2, rfl⟩ := List.length_eq_three.1 h3
  have hc : constrain fc 2 20000 / ((_sampleRate : Int) : ℚ) = normalizedCutoff fc := by
    rw [constrain_eq_max_min fc 2 20000 (by norm_num)]
    simp [normalizedCutoff, _sampleRate]
  unfold setFilter
  simp only [hc]
  rw [setFilterLoop_three]
  refine ⟨rfl, ?_⟩
  intro i hi
  have : i = 0 ∨ i = 1 ∨ i = 2 := by
    simp only [NUMBER_OF_FILTER] at hi
    omega
  rcases this with rfl | rfl | rfl <;> rfl

theorem C13_setFilter_configures_every_section_witness :
    (setFilter sampleExternals 0 (gainBank 1) bq_type_highpass 500).length = NUMBER_OF_FILTER ∧
    ∀ i, i < NUMBER_OF_FILTER →
      (setFilter sampleExternals 0 (gainBank 1) bq_type_highpass 500).get? i =
        ((gainBank 1).get? i).map
          (fun b => sampleExternals.setBiquad b bq_type_highpass (normalizedCutoff 500)
            (qualityFactor sampleExternals i) 0) :=
  C13_setFilter_configures_every_section sampleExternals (gainBank 1) bq_type_highpass 500 rfl

theorem constrainF_fin (q lo hi : ℚ) :
    constrainF (CFloat.fin q) (CFloat.fin lo) (CFloat.fin hi) = CFloat.fin (constrain q lo hi) := by
  unfold constrainF constrain
  simp only [CFloat.lt, decide_eq_true_eq, gt_iff_lt]
  split
  · rfl
  · split <;> rfl

theorem constrain_zero_two (x : ℚ) : constrain x 0 2 = min (max x 0) 2 := by
  unfold constrain
  split
  · next h1 => rw [max_eq_right (le_of_lt h1), min_eq_left (by norm_num)]
  · next h1 =>
    rw [max_eq_left (not_lt.1 h1)]
    split
    · next h2 => rw [min_eq_right (le_of_lt h2)]
    · next h2 => rw [min_eq_left (not_lt.1 h2)]

theorem setVolumeF_fin (s : State) (q : ℚ) :
    setVolumeF (CFloat.fin q) = CFloat.fin (setVolume s q)._volume := by
  unfold setVolumeF setVolume
  simp only [CFloat.divPos]
  rw [constrainF_fin]

theorem setFilterLoopF_three (L : Externals) (type : Int) (x : CFloat) :
    setFilterLoopF L type x (NUMBER_OF_FILTER - 0) 0 =
      [(0, type, x, qualityFactor L 0, 0), (1, type, x, qualityFactor L 1, 0),
       (2, type, x, qualityFactor L 2, 0)] := by
  have q : ∀ i : Nat, 1 / (2 * L.cos (L.PI / ((NUMBER_OF_FILTER : ℚ) * 4)
      + (i : ℚ) * L.PI / ((NUMBER_OF_FILTER : ℚ) * 2))) = qualityFactor L i := by
    intro i
    unfold qualityFactor
    rw [mul_comm (NUMBER_OF_FILTER : ℚ) 4, mul_comm (NUMBER_OF_FILTER : ℚ) 2]
  have e3 : NUMBER_OF_FILTER - 0 = 2 + 1 := rfl
  rw [e3]
  simp only [setFilterLoopF, q]
  simp [NUMBER_OF_FILTER]

theorem setFilterLoopF_cutoff (L : Externals) (type : Int) (x : CFloat) (fuel i : Nat) :
    ∀ c ∈ setFilterLoopF L type x fuel i, c.2.2.1 = x := by
  induction fuel generalizing i with
  | zero => intro c hc; simp [setFilterLoopF] at hc
  | succ n ih =>
    intro c hc
    simp only [setFilterLoopF] at hc
    split at hc
    · rcases List.mem_cons.1 hc with rfl | hc
      · rfl
      · exact ih (i + 1) c hc
    · simp at hc

theorem setFilterF_cutoff_cases (fc : CFloat) (hfc : fc ≠ CFloat.nan) :
    ∃ x : ℚ, (constrainF fc (CFloat.fin 2) (CFloat.fin 20000)).divPos (_sampleRate : ℚ)
        = CFloat.fin x ∧ 0 < x ∧ x < 1 / 2 ∧
      (∀ q, fc = CFloat.fin q → x = constrain q 2 20000 / (_sampleRate : ℚ)) := by
  have h44 : (0 : ℚ) < ((_sampleRate : Int) : ℚ) := by norm_num [_sampleRate]
  have hlo : (0 : ℚ) < 2 / ((_sampleRate : Int) : ℚ) := div_pos (by norm_num) h44
  have hhi : (20000 : ℚ) / ((_sampleRate : Int) : ℚ) < 1 / 2 := by norm_num [_sampleRate]
  cases fc with
  | nan => exact absurd rfl hfc
  | negInf =>
    exact ⟨2 / (_sampleRate : ℚ), rfl, hlo, lt_of_le_of_lt
      (div_le_div_of_nonneg_right (by norm_num) (le_of_lt h44)) hhi, fun q hq => (by cases hq)⟩
  | posInf =>
    exact ⟨20000 / (_sampleRate : ℚ), rfl, lt_of_lt_of_le hlo
      (div_le_div_of_nonneg_right (by norm_num) (le_of_lt h44)), hhi, fun q hq => (by cases hq)⟩
  | fin q =>
    refine ⟨constrain q 2 20000 / (_sampleRate : ℚ), ?_, ?_, ?_, ?_⟩
    · rw [constrainF_fin]
      rfl
    · rw [constrain_eq_max_min q 2 20000 (by norm_num)]
      have : (2 : ℚ) ≤ max 2 (min q 20000) := le_max_left _ _
      exact div_pos (by linarith) h44
    · rw [constrain_eq_max_min q 2 20000 (by norm_num)]
      have : max 2 (min q 20000) ≤ (20000 : ℚ) := max_le (by norm_num) (min_le_right _ _)
      exact lt_of_le_of_lt (div_le_div_of_nonneg_right this (le_of_lt h44)) hhi
    · intro q1 hq
      cases hq
      rfl

/-- C14 (counterexample).  For the argument NaN the division by 5 gives NaN,
both comparisons of the clamp are false, and NaN is assigned to `_volume`: the
stored gain is no number of [0, 2]. -/
theorem C14_setVolume_nan_counterexample :
    setVolumeF CFloat.nan = CFloat.nan ∧
    ¬ ∃ g : ℚ, setVolumeF CFloat.nan = CFloat.fin g ∧ 0 ≤ g ∧ g ≤ 2 := by
  refine ⟨rfl, ?_⟩
  rintro ⟨g, hg, _⟩
  cases hg

/-- C14 (amended).  For every argument `vol` other than NaN, `setVolume`
stores a finite gain in [0, 2]: `min(max(vol/5, 0), 2)` for a finite `vol`,
which is also what the rational model `setVolume` stores, and `vol/5` itself
for `vol` in the documented range 0-9; 2 for plus infinity and 0 for minus
infinity.  `setVolume(5)` stores exactly 1. -/
theorem C14_setVolume_stores_clamped_gain (s : State) (vol : CFloat) (hvol : vol ≠ CFloat.nan) :
    (∃ g : ℚ, setVolumeF vol = CFloat.fin g ∧ 0 ≤ g ∧ g ≤ 2 ∧
      (∀ q : ℚ, vol = CFloat.fin q →
        g = min (max (q / 5) 0) 2 ∧ (setVolume s q)._volume = g ∧
        (0 ≤ q → q ≤ 9 → g = q / 5)) ∧
      (vol = CFloat.posInf → g = 2) ∧ (vol = CFloat.negInf → g = 0)) ∧
    setVolumeF (CFloat.fin 5) = CFloat.fin 1 ∧ (setVolume s 5)._volume = 1 := by
  have e : ∀ v : ℚ, (setVolume s v)._volume = constrain (v / 5) 0 2 := fun v => rfl
  refine ⟨?_, ?_, ?_⟩
  · cases vol with
    | nan => exact absurd rfl hvol
    | negInf =>
      exact ⟨0, rfl, le_refl _, by norm_num, fun q hq => (by cases hq), fun hq => (by cases hq),
        fun _ => rfl⟩
    | posInf =>
      exact ⟨2, rfl, by norm_num, le_refl _, fun q hq => (by cases hq), fun _ => rfl,
        fun hq => (by cases hq)⟩
    | fin q =>
      refine ⟨constrain (q / 5) 0 2, ?_, ?_, ?_, ?_, fun hq => (by cases hq), fun hq => (by cases hq)⟩
      · rw [setVolumeF_fin s q, e]
      · rw [constrain_zero_two]
        exact le_min (le_max_right _ _) (by norm_num)
      · rw [constrain_zero_two]
        exact min_le_right _ _
      · intro q1 hq
        cases hq
        refine ⟨constrain_zero_two _, e q, ?_⟩
        intro h0 h9
        unfold constrain
        rw [if_neg (by linarith), if_neg (by linarith)]
  · rw [setVolumeF_fin s 5, e]
    norm_num [constrain]
  · rw [e]
    norm_num [constrain]

theorem C14_setVolume_stores_clamped_gain_witness :
    CFloat.fin 9 ≠ CFloat.nan ∧
    ((∃ g : ℚ, setVolumeF (CFloat.fin 9) = CFloat.fin g ∧ 0 ≤ g ∧ g ≤ 2 ∧
      (∀ q : ℚ, CFloat.fin 9 = CFloat.fin q →
        g = min (max (q / 5) 0) 2 ∧ (setVolume (mkState 1 0 false) q)._volume = g ∧
        (0 ≤ q → q ≤ 9 → g = q / 5)) ∧
      (CFloat.fin 9 = CFloat.posInf → g = 2) ∧ (CFloat.fin 9 = CFloat.negInf → g = 0)) ∧
    setVolumeF (CFloat.fin 5) = CFloat.fin 1 ∧ (setVolume (mkState 1 0 false) 5)._volume = 1) :=
  ⟨CFloat.noConfusion,
    C14_setVolume_stores_clamped_gain (mkState 1 0 false) (CFloat.fin 9) CFloat.noConfusion⟩

/-- C18 (counterexample).  For the raw cutoff NaN both comparisons of the
clamp are false and the division by the sample rate keeps NaN: each of the
three `setBiquad` calls of `setFilter` receives NaN as its normalized cutoff,
no number of (0, 0.5). -/
theorem C18_nan_cutoff_counterexample :
    (setFilterF sampleExternals 0 bq_type_lowpass CFloat.nan).map
        (fun c => (c.1, c.2.1, c.2.2.1)) =
      [(0, bq_type_lowpass, CFloat.nan), (1, bq_type_lowpass, CFloat.nan),
       (2, bq_type_lowpass, CFloat.nan)] ∧
    ¬ ∃ x : ℚ, (∀ c ∈ setFilterF sampleExternals 0 bq_type_lowpass CFloat.nan,
      c.2.2.1 = CFloat.fin x) ∧ 0 < x ∧ x < 1 / 2 := by
  have h : setFilterF sampleExternals 0 bq_type_lowpass CFloat.nan =
      setFilterLoopF sampleExternals bq_type_lowpass CFloat.nan (NUMBER_OF_FILTER - 0) 0 := rfl
  rw [h, setFilterLoopF_three]
  refine ⟨rfl, ?_⟩
  rintro ⟨x, hx, _⟩
  have := hx _ (List.mem_cons_self _ _)
  cases this

/-- C18 (amended).  For every raw cutoff `fc` other than NaN there is a number
`x` strictly between 0 and 1/2 that every `setBiquad` call of `setFilter`
receives as its normalized cutoff, whatever the loop counter holds on entry;
with the counter starting at 0 the calls are those of the sections 0, 1, 2,
each with the kind, `x`, `Q(i)` and peak gain 0.  For a finite `fc` the number
is `constrain(fc, 2, 20000) / _sampleRate` with `_sampleRate = 44100`, and a
bank of three sections is left as the three sections configured with it. -/
theorem C18_normalized_cutoff_in_range (L : Externals) (type : Int) (fc : CFloat)
    (hfc : fc ≠ CFloat.nan) :
    ∃ x : ℚ, 0 < x ∧ x < 1 / 2 ∧
      (∀ i0, ∀ c ∈ setFilterF L i0 type fc, c.2.2.1 = CFloat.fin x) ∧
      setFilterF L 0 type fc =
        [(0, type, CFloat.fin x, qualityFactor L 0, 0),
         (1, type, CFloat.fin x, qualityFactor L 1, 0),
         (2, type, CFloat.fin x, qualityFactor L 2, 0)] ∧
      (∀ q : ℚ, fc = CFloat.fin q →
        x = constrain q 2 20000 / (44100 : ℚ) ∧
        ∀ b0 b1 b2 : Biquad, setFilter L 0 [b0, b1, b2] type q =
          [L.setBiquad b0 type x (qualityFactor L 0) 0,
           L.setBiquad b1 type x (qualityFactor L 1) 0,
           L.setBiquad b2 type x (qualityFactor L 2) 0]) := by
  obtain ⟨x, hx, h0, h1, hq⟩ := setFilterF_cutoff_cases fc hfc
  refine ⟨x, h0, h1, ?_, ?_, ?_⟩
  · intro i0 c hc
    unfold setFilterF at hc
    simp only [hx] at hc
    exact setFilterLoopF_cutoff L type _ _ _ c hc
  · unfold setFilterF
    simp only [hx]
    exact setFilterLoopF_three L type _
  · intro q hfq
    have hxq := hq q hfq
    refine ⟨by rw [hxq]; norm_num [_sampleRate], ?_⟩
    intro b0 b1 b2
    unfold setFilter
    simp only [← hxq]
    exact setFilterLoop_three L type x b0 b1 b2

theorem C18_normalized_cutoff_in_range_witness :
    CFloat.fin 500 ≠ CFloat.nan ∧
    ∃ x : ℚ, 0 < x ∧ x < 1 / 2 ∧
      (∀ i0, ∀ c ∈ setFilterF sampleExternals i0 bq_type_highpass (CFloat.fin 500),
        c.2.2.1 = CFloat.fin x) ∧
      setFilterF sampleExternals 0 bq_type_highpass (CFloat.fin 500) =
        [(0, bq_type_highpass, CFloat.fin x, qualityFactor sampleExternals 0, 0),
         (1, bq_type_highpass, CFloat.fin x, qualityFactor sampleExternals 1, 0),
         (2, bq_type_highpass, CFloat.fin x, qualityFactor sampleExternals 2, 0)] ∧
      (∀ q : ℚ, CFloat.fin 500 = CFloat.fin q →
        x = constrain q 2 20000 / (44100 : ℚ) ∧
        ∀ b0 b1 b2 : Biquad, setFilter sampleExternals 0 [b0, b1, b2] bq_type_highpass q =
          [sampleExternals.setBiquad b0 bq_type_highpass x (qualityFactor sampleExternals 0) 0,
           sampleExternals.setBiquad b1 bq_type_highpass x (qualityFactor sampleExternals 1) 0,
           sampleExternals.setBiquad b2 bq_type_highpass x (qualityFactor sampleExternals 2) 0]) :=
  ⟨CFloat.noConfusion,
    C18_normalized_cutoff_in_range sampleExternals bq_type_highpass (CFloat.fin 500)
      CFloat.noConfusion⟩

/-! ## The kinds held by the four banks -/

theorem setFilter_kind (L : Externals) (hstore : ∀ b t f q g, (L.setBiquad b t f q g).type = t)
    (bank : List Biquad) (type : Int) (fc : ℚ) (h : bank.length = 3) :
    (setFilter L 0 bank type fc).length = 3 ∧ ∀ b ∈ setFilter L 0 bank type fc, b.type = type := by
  obtain ⟨b0, b1, b2, rfl⟩ := List.length_eq_three.1 h
  unfold setFilter
  rw [setFilterLoop_three]
  refine ⟨rfl, ?_⟩
  intro b hb
  simp only [List.mem_cons, List.mem_singleton, List.not_mem_nil, or_false] at hb
  rcases hb with rfl | rfl | rfl <;> exact hstore _ _ _ _ _

theorem begin_banks (L : Externals) (hstore : ∀ b t f q g, (L.setBiquad b t f q g).type = t)
    (s : State) (hs : BanksSized s) :
    BanksSized (begin L 0 true true s).2 ∧ LowBanksLowpass (begin L 0 true true s).2 := by
  obtain ⟨h1, h2, h3, h4⟩ := hs
  have k1 := setFilter_kind L hstore s._filterLLP bq_type_lowpass 20000 h1
  have k2 := setFilter_kind L hstore s._filterRLP bq_type_lowpass 20000 h2
  have k3 := setFilter_kind L hstore s._filterLHP bq_type_highpass 2 h3
  have k4 := setFilter_kind L hstore s._filterRHP bq_type_highpass 2 h4
  exact ⟨⟨k1.1, k2.1, k3.1, k4.1⟩, k1.2, k2.2⟩

theorem openFilter_banks (L : Externals) (hstore : ∀ b t f q g, (L.setBiquad b t f q g).type = t)
    (s : State) (type : Int) (fc : ℚ) (hs : BanksSized s) (hl : LowBanksLowpass s) :
    BanksSized (openFilter L 0 s type fc) ∧ LowBanksLowpass (openFilter L 0 s type fc) := by
  obtain ⟨h1, h2, h3, h4⟩ := hs
  have k1 := setFilter_kind L hstore s._filterLLP type fc h1
  have k2 := setFilter_kind L hstore s._filterRLP type fc h2
  have k3 := setFilter_kind L hstore s._filterLHP type fc h3
  have k4 := setFilter_kind L hstore s._filterRHP type fc h4
  unfold openFilter
  by_cases ht : bq_type_lowpass = type
  · simp only [if_pos ht]
    refine ⟨⟨k1.1, k2.1, h3, h4⟩, ?_, ?_⟩
    · intro b hb
      rw [ht]
      exact k1.2 b hb
    · intro b hb
      rw [ht]
      exact k2.2 b hb
  · simp only [if_neg ht]
    exact ⟨⟨h1, h2, k3.1, k4.1⟩, hl⟩

theorem runFilterCalls_banks (L : Externals)
    (hstore : ∀ b t f q g, (L.setBiquad b t f q g).type = t) (calls : List FilterCall)
    (s : State) (hs : BanksSized s) (hl : LowBanksLowpass s) :
    BanksSized (runFilterCalls L 0 calls s) ∧ LowBanksLowpass (runFilterCalls L 0 calls s) := by
  induction calls generalizing s with
  | nil => exact ⟨hs, hl⟩
  | cons c rest ih =>
    cases c with
    | openFilter type fc =>
      have h := openFilter_banks L hstore s type fc hs hl
      exact ih _ h.1 h.2
    | closeFilter => exact ih (closeFilter s) hs hl

theorem runFilterCalls_append (L : Externals) (i0 : Nat) (xs ys : List FilterCall) (s : State) :
    runFilterCalls L i0 (xs ++ ys) s = runFilterCalls L i0 ys (runFilterCalls L i0 xs s) := by
  induction xs generalizing s with
  | nil => rfl
  | cons c rest ih =>
    cases c with
    | openFilter type fc => exact ih _
    | closeFilter => exact ih _

theorem openFilter_documented_kind (L : Externals)
    (hstore : ∀ b t f q g, (L.setBiquad b t f q g).type = t) (s : State) (type : Int) (fc : ℚ)
    (hs : BanksSized s) (hh : HighBanksHighpass s)
    (hk : type = bq_type_lowpass ∨ type = bq_type_highpass) :
    BanksSized (openFilter L 0 s type fc) ∧ HighBanksHighpass (openFilter L 0 s type fc) := by
  obtain ⟨h1, h2, h3, h4⟩ := hs
  have k1 := setFilter_kind L hstore s._filterLLP type fc h1
  have k2 := setFilter_kind L hstore s._filterRLP type fc h2
  have k3 := setFilter_kind L hstore s._filterLHP type fc h3
  have k4 := setFilter_kind L hstore s._filterRHP type fc h4
  unfold openFilter
  rcases hk with rfl | rfl
  · simp only [if_pos]
    exact ⟨⟨k1.1, k2.1, h3, h4⟩, hh⟩
  · have hne : ¬ bq_type_lowpass = bq_type_highpass := by decide
    simp only [if_neg hne]
    exact ⟨⟨h1, h2, k3.1, k4.1⟩, k3.2, k4.2⟩

theorem runFilterCalls_documented_kinds (L : Externals)
    (hstore : ∀ b t f q g, (L.setBiquad b t f q g).type = t) (calls : List FilterCall)
    (s : State) (hs : BanksSized s) (hh : HighBanksHighpass s) (hd : DocumentedKinds calls) :
    HighBanksHighpass (runFilterCalls L 0 calls s) := by
  induction calls generalizing s with
  | nil => exact hh
  | cons c rest ih =>
    have hrest : DocumentedKinds rest := fun c1 h1 => hd c1 (List.mem_cons_of_mem _ h1)
    cases c with
    | closeFilter => exact ih (closeFilter s) hs hh hrest
    | openFilter type fc =>
      have hk := hd _ (List.mem_cons_self _ _) type fc rfl
      have ho := openFilter_documented_kind L hstore s type fc hs hh hk
      exact ih _ ho.1 ho.2 hrest

theorem begin_high_banks (L : Externals)
    (hstore : ∀ b t f q g, (L.setBiquad b t f q g).type = t) (s : State) (hs : BanksSized s) :
    HighBanksHighpass (begin L 0 true true s).2 :=
  ⟨(setFilter_kind L hstore s._filterLHP bq_type_highpass 2 hs.2.2.1).2,
   (setFilter_kind L hstore s._filterRHP bq_type_highpass 2 hs.2.2.2).2⟩

/-- C17 (the code at the failing input).  Let `setBiquad` store the kind it
is given.  After `begin` and any sequence of `openFilter` and `closeFilter`
calls the two low-pass banks hold only lowpass sections; but one more call
`openFilter(bq_type_bandpass, fc)` takes the `else` branch of `openFilter`,
which passes `type` on unchanged, and leaves every one of the three sections
of each high-pass bank with kind bandpass, not highpass. -/
theorem C17_bandpass_lands_in_highpass_banks (L : Externals)
    (hstore : ∀ b t f q g, (L.setBiquad b t f q g).type = t) (s0 : State)
    (hs : BanksSized s0) (calls : List FilterCall) (fc : ℚ) :
    LowBanksLowpass (runFilterCalls L 0 calls (begin L 0 true true s0).2) ∧
    (runFilterCalls L 0 (calls ++ [FilterCall.openFilter bq_type_bandpass fc])
        (begin L 0 true true s0).2)._filterLHP.length = 3 ∧
    (runFilterCalls L 0 (calls ++ [FilterCall.openFilter bq_type_bandpass fc])
        (begin L 0 true true s0).2)._filterRHP.length = 3 ∧
    (∀ b ∈ (runFilterCalls L 0 (calls ++ [FilterCall.openFilter bq_type_bandpass fc])
        (begin L 0 true true s0).2)._filterLHP, b.type = bq_type_bandpass) ∧
    (∀ b ∈ (runFilterCalls L 0 (calls ++ [FilterCall.openFilter bq_type_bandpass fc])
        (begin L 0 true true s0).2)._filterRHP, b.type = bq_type_bandpass) ∧
    bq_type_bandpass ≠ bq_type_highpass := by
  have hb := begin_banks L hstore s0 hs
  have hr := runFilterCalls_banks L hstore calls _ hb.1 hb.2
  obtain ⟨h1, h2, h3, h4⟩ := hr.1
  have k3 := setFilter_kind L hstore _ bq_type_bandpass fc h3
  have k4 := setFilter_kind L hstore _ bq_type_bandpass fc h4
  rw [runFilterCalls_append]
  exact ⟨hr.2, k3.1, k4.1, k3.2, k4.2, by decide⟩

theorem C17_bandpass_lands_in_highpass_banks_witness :
    LowBanksLowpass (runFilterCalls sampleExternals 0
        [FilterCall.openFilter bq_type_highpass 500, FilterCall.closeFilter]
        (begin sampleExternals 0 true true bankState).2) ∧
    (runFilterCalls sampleExternals 0
        ([FilterCall.openFilter bq_type_highpass 500, FilterCall.closeFilter]
          ++ [FilterCall.openFilter bq_type_bandpass 1000])
        (begin sampleExternals 0 true true bankState).2)._filterLHP.length = 3 ∧
    (runFilterCalls sampleExternals 0
        ([FilterCall.openFilter bq_type_highpass 500, FilterCall.closeFilter]
          ++ [FilterCall.openFilter bq_type_bandpass 1000])
        (begin sampleExternals 0 true true bankState).2)._filterRHP.length = 3 ∧
    (∀ b ∈ (runFilterCalls sampleExternals 0
        ([FilterCall.openFilter bq_type_highpass 500, FilterCall.closeFilter]
          ++ [FilterCall.openFilter bq_type_bandpass 1000])
        (begin sampleExternals 0 true true bankState).2)._filterLHP,
      b.type = bq_type_bandpass) ∧
    (∀ b ∈ (runFilterCalls sampleExternals 0
        ([FilterCall.openFilter bq_type_highpass 500, FilterCall.closeFilter]
          ++ [FilterCall.openFilter bq_type_bandpass 1000])
        (begin sampleExternals 0 true true bankState).2)._filterRHP,
      b.type = bq_type_bandpass) ∧
    bq_type_bandpass ≠ bq_type_highpass :=
  C17_bandpass_lands_in_highpass_banks sampleExternals (fun _ _ _ _ _ => rfl) bankState
    ⟨rfl, rfl, rfl, rfl⟩ [FilterCall.openFilter bq_type_highpass 500, FilterCall.closeFilter] 1000

/-! ## The music catalog -/

theorem listDirLoop_eq_pushes : ∀ (ns : List Node) (c : Catalog),
    listDirLoop ns c = (containsWavPathsList ns).foldl pushPath c
  | [], c => by simp [listDirLoop, containsWavPathsList]
  | Node.file name path :: rest, c => by
    simp only [listDirLoop, containsWavPathsList, containsWavPaths, List.foldl_append]
    split
    · rw [listDirLoop_eq_pushes rest]
      rfl
    · rw [listDirLoop_eq_pushes rest]
      rfl
  | Node.dir name path children :: rest, c => by
    simp only [listDirLoop, listDir, containsWavPathsList, containsWavPaths, List.foldl_append]
    rw [listDirLoop_eq_pushes rest, listDirLoop_eq_pushes children]

theorem listDir_dir_eq_pushes (name path : String) (children : List Node) (c : Catalog) :
    listDir (Node.dir name path children) c
      = (containsWavPaths (Node.dir name path children)).foldl pushPath c := by
  simp only [listDir, containsWavPaths]
  exact listDirLoop_eq_pushes children c

/-- C11 (the code at the failing input).  `listDir` stores the path of every
file whose name contains ".wav" anywhere (`strstr`), in enumeration order.  On
a card that holds "notes.wav.txt" and "a.wav" the catalog of `scanSDMusic` is
["/notes.wav.txt", "/a.wav"], while the files whose name ends in ".wav" are
["/a.wav"] only. -/
theorem C11_catalog_lists_names_containing_wav :
    (∀ (name path : String) (children : List Node) (c : Catalog),
      listDir (Node.dir name path children) c
        = (containsWavPaths (Node.dir name path children)).foldl pushPath c) ∧
    scannedCatalog (sdState SD_AMPLIFIER_STOP) bootCatalog cardWithBackup (List.replicate 100 "")
      = ["/notes.wav.txt", "/a.wav"] ∧
    wavPaths cardWithBackup = ["/a.wav"] :=
  ⟨listDir_dir_eq_pushes, by decide, by decide⟩

set_option maxRecDepth 100000 in
/-- C12 (the code at the failing input).  On a card with the 101 files
"0.wav" ... "100.wav" in its root, `scanSDMusic` ends with `musicCount = 101`
and has stored the path "/100.wav" at index 100, behind the 100 slots of
`_musicList`: `listDir` makes no check of the count against the array size. -/
theorem C12_catalog_overflows_at_101_files :
    (scanSDMusic (sdState SD_AMPLIFIER_STOP) bootCatalog (flatCard 101)
        (List.replicate 100 "")).2.1.musicCount = 101 ∧
    bootCatalog._musicList.length = 100 ∧
    (scanSDMusic (sdState SD_AMPLIFIER_STOP) bootCatalog (flatCard 101)
        (List.replicate 100 "")).2.1._musicList.length = 101 ∧
    (scanSDMusic (sdState SD_AMPLIFIER_STOP) bootCatalog (flatCard 101)
        (List.replicate 100 "")).2.1._musicList.getD 100 "" = "/100.wav" := by
  decide

/-! ## Stop during a pause, and the scan for the data chunk -/

theorem pauseWait_polls_then_stop (polls : Nat) (s : State)
    (hp : s.SDAmplifierMark = SD_AMPLIFIER_PAUSE) :
    pauseWait (List.replicate polls none ++ [some SD_AMPLIFIER_STOP]) s =
      some (setMark s SD_AMPLIFIER_STOP, []) := by
  induction polls with
  | zero =>
    simp only [List.replicate_zero, List.nil_append, pauseWait, readMark]
    rw [if_neg (by decide)]
    rfl
  | succ n ih =>
    simp only [List.replicate_succ, List.cons_append, pauseWait, readMark]
    rw [if_pos hp.symm]
    exact ih

theorem playWAV_stream_pause_then_stop (i0 fuel L p polls : Nat) (h : sWavParse_t) (s : State)
    (hdata : h.data = List.replicate 800 0) (hf : s._filterFlag = false)
    (hv : s._voiceSource ≤ 1) (hL : 800 < L) :
    playWAV_stream i0 (fuel + 1 + 1) (pauseThenStop polls) h
        { rest := List.replicate L 0, pos := p } s =
      TaskResult.finished
        { s with SDAmplifierMark := SD_AMPLIFIER_STOP,
                 i2sOut := s.i2sOut ++ List.replicate 400 (0, 0) } [] := by
  rw [playWAV_stream_zeros_step i0 (fuel + 1) L p _ h s hdata hf hv (by omega)]
  simp only [pauseThenStop, readMark]
  rw [if_neg (by decide), pauseWait_polls_then_stop polls _ rfl]
  simp only
  have e := playWAV_stream_zeros_step i0 fuel (L - 800) (p + min 800 L) [] h
    { s with SDAmplifierMark := SD_AMPLIFIER_STOP,
             i2sOut := s.i2sOut ++ List.replicate 200 (0, 0) } hdata hf hv (by omega)
  simp only [readMark, if_true, List.append_assoc, List.append_replicate_replicate] at e
  exact e

/-- C15 (the code at the failing input).  Play one second of silence at
44100 Hz; Pause arrives during the first chunk, the task waits in the Pause
loop for any number of polls, then Stop arrives.  The Pause loop ends and the
loop condition reads the second chunk and hands it to
`audioDataProcessCallback` before the mark is compared with Stop: 400 frames
are written, the 200 of the first chunk and 200 more after Stop was
commanded. -/
theorem C15_stop_during_pause_plays_one_more_chunk (polls : Nat) :
    playWAV_body 0 (singleFile "/sd/a.wav" (silentWav 44100)) (pauseThenStop polls)
        (sdState SD_AMPLIFIER_PLAY) =
      TaskResult.finished
        { sdState SD_AMPLIFIER_STOP with
          i2sSampleRate := 44100, i2sOut := List.replicate 400 (0, 0) } [] := by
  have hb := playWAV_body_silentWav_stream 0 (singleFile "/sd/a.wav" (silentWav 44100))
    (pauseThenStop polls) (sdState SD_AMPLIFIER_PLAY) 44100 (by simp [singleFile, sdState])
  rw [silentWav_length, show 44 + 4 * 44100 + 1 = 176443 + 1 + 1 from rfl,
    playWAV_stream_pause_then_stop 0 _ _ _ polls (silentHeader 44100) _ rfl rfl (by decide)
      (by norm_num)] at hb
  have e1 : 44100 % 256 ^ 4 = 44100 := by norm_num
  have e4 : (sdState SD_AMPLIFIER_PLAY).i2sOut = [] := rfl
  rw [e1, e4, List.nil_append] at hb
  exact hb

/-- C16 (the code at the failing input).  In `wavWithStrayD` the bytes after
the bits-per-sample field are 'd', "data", the size 4 and four payload bytes.
The scan reads the first 'd', then the three bytes "dat", which are not "ata",
and goes on behind them: the tag is missed, the scan runs to the end of the
file at offset 49 and leaves through `free(wav); break;` with `dataSize`
still 0, where the claim has `dataSize = 4` and the cursor at offset 45 with
the payload [1, 0, 2, 0] ahead. -/
theorem C16_scan_misses_data_after_d :
    (playWAV_parse wavWithStrayD).map (fun r => (r.1.dataSize, r.2.1.rest, r.2.1.pos, r.2.2))
      = some (0, [], 49, true) ∧
    (wavWithStrayD.drop 37).take 4 = strData ∧
    leValue ((wavWithStrayD.drop 41).take 4) = 4 ∧
    wavWithStrayD.drop 45 = [1, 0, 2, 0] := by
  decide

end DFRobot
